import Mathlib

/-!
Verification development for the NOAA space-weather extraction service.

The development shallowly embeds the three core modules:
  * `extractor.js` — dropout-tolerant extraction (`getLastValidRow`,
    `getLastValidObject`, `getLastValidByEnergy`, `parseAuroraText`) and the
    aggregation entry point `fetchAll`;
  * `alerts.js` — the threshold evaluator `evaluate`;
  * `server.js` — the single-flight, TTL-bound snapshot cache around
    `getFreshData`, modelled as an explicit state machine whose atomic steps
    correspond to the synchronous segments of the single-threaded event loop.

JavaScript values flowing through the extraction pipeline are modelled by the
inductive `JSVal` (null, undefined, NaN, ±Infinity, finite numbers as exact
rationals, strings).  The built-in `parseFloat` / string-to-number coercion is
modelled by an executable decimal-literal parser (`parseFloatCore`); binary
floating-point rounding is not modelled — numbers are exact rationals — which
is irrelevant for every property below (they only inspect null/empty-ness,
parse success, and order comparisons against decimal thresholds).
-/

/-- A JavaScript value as it appears in the JSON feeds and in the computed
fields of the extractor: `null`, `undefined` (absent property / out-of-range
index), `NaN`, signed infinity, a finite number (exact rational), or a
string. -/
inductive JSVal where
  | null
  | undefined
  | nan
  | inf (neg : Bool)
  | num (q : Rat)
  | str (s : String)
deriving DecidableEq, Repr

/-- A JavaScript number that is not NaN: signed infinity or a finite value.
`Option JSNum` with `none` standing for NaN is the result type of the
modelled `parseFloat`. -/
inductive JSNum where
  | inf (neg : Bool)
  | val (q : Rat)
deriving DecidableEq, Repr

/-- Inject a non-NaN JavaScript number back into `JSVal`. -/
def JSNum.toVal : JSNum → JSVal
  | .inf neg => JSVal.inf neg
  | .val q => JSVal.num q

/-- Numeric value of a digit character sequence (most significant first). -/
def digitsToNat (ds : List Char) : Nat :=
  ds.foldl (fun a c => a * 10 + (c.toNat - 48)) 0

/-- Parse the optional exponent part that follows `e`/`E`: an optional sign
and at least one digit.  Returns the exponent and the unconsumed remainder;
`none` when no digit follows (in which case `parseFloat` does not consume the
`e` at all, e.g. `"1e"` parses as `1`). -/
def parseExpRem (cs : List Char) : Option (Int × List Char) :=
  let signSplit : Bool × List Char :=
    match cs with
    | '-' :: t => (true, t)
    | '+' :: t => (false, t)
    | _ => (false, cs)
  let ds := signSplit.2.takeWhile Char.isDigit
  if ds.isEmpty then none
  else
    let e : Int := (digitsToNat ds : Int)
    some (if signSplit.1 then -e else e, signSplit.2.dropWhile Char.isDigit)

/-- Core of the ECMAScript `parseFloat` grammar at the start of the input
(no leading-whitespace skipping): optional sign, then `Infinity` or a decimal
literal `digits [. digits] [e sign digits]` where at least one digit must be
present before or after the point.  Returns the parsed number and the
unconsumed remainder, or `none` (NaN) when no prefix parses. -/
def parseFloatCore (cs0 : List Char) : Option (JSNum × List Char) :=
  let signSplit : Bool × List Char :=
    match cs0 with
    | '-' :: t => (true, t)
    | '+' :: t => (false, t)
    | _ => (false, cs0)
  let neg := signSplit.1
  let cs := signSplit.2
  if cs.take 8 = "Infinity".data then some (.inf neg, cs.drop 8)
  else
    let ip := cs.takeWhile Char.isDigit
    let r1 := cs.dropWhile Char.isDigit
    let fracSplit : List Char × List Char :=
      match r1 with
      | '.' :: t => (t.takeWhile Char.isDigit, t.dropWhile Char.isDigit)
      | _ => ([], r1)
    let fp := fracSplit.1
    let r2 := fracSplit.2
    if ip.isEmpty && fp.isEmpty then none
    else
      let mant : Rat := (digitsToNat ip : Rat) + (digitsToNat fp : Rat) / ((10 : Rat) ^ fp.length)
      let expSplit : Int × List Char :=
        match r2 with
        | c :: t =>
          if c = 'e' ∨ c = 'E' then
            match parseExpRem t with
            | some (ev, rest) => (ev, rest)
            | none => (0, r2)
          else (0, r2)
        | [] => (0, r2)
      let v : Rat := mant * (10 : Rat) ^ expSplit.1
      some (.val (if neg then -v else v), expSplit.2)

/-- Model of JavaScript `parseFloat` on a character sequence: skip leading
whitespace, then parse the longest valid prefix; `none` is NaN. -/
def jsParseFloat (s : List Char) : Option JSNum :=
  (parseFloatCore (s.dropWhile Char.isWhitespace)).map Prod.fst

/-- Strip leading and trailing whitespace (model of `String.prototype.trim`). -/
def trimChars (cs : List Char) : List Char :=
  ((cs.dropWhile Char.isWhitespace).reverse.dropWhile Char.isWhitespace).reverse

/-- Split a character sequence at every character satisfying `p`; separators
are consumed and empty groups are kept (mirrors `String.prototype.split`). -/
def splitOnPred (p : Char → Bool) : List Char → List (List Char)
  | [] => [[]]
  | c :: cs =>
    match splitOnPred p cs with
    | [] => [[]]
    | g :: gs => if p c then [] :: g :: gs else (c :: g) :: gs

/-- Whitespace-delimited tokens of a line: the model of `line.split(/\s+/)`
on an already-trimmed line (empty groups are dropped). -/
def wsTokens (cs : List Char) : List (List Char) :=
  (splitOnPred Char.isWhitespace cs).filter (fun t => !t.isEmpty)

/-- The final whitespace-delimited token of a line
(`parts[parts.length - 1]`). -/
def lastTokenOf (cs : List Char) : List Char :=
  (wsTokens cs).getD ((wsTokens cs).length - 1) []

/-- Model of JavaScript string-to-number coercion (`Number(s)`) for the
decimal literals appearing in the feeds: trim, empty means `0`, otherwise the
whole trimmed string must be a single literal (hex/octal/binary literals are
not modelled); `none` is NaN. -/
def jsStringToNumber (s : List Char) : Option JSNum :=
  let t := trimChars s
  if t.isEmpty then some (.val 0)
  else
    match parseFloatCore t with
    | some (v, []) => some v
    | _ => none

/-- JavaScript `ToNumber` on the modelled values (`none` is NaN).  The
`null ↦ 0` case is unreachable in the evaluator, which always guards
comparisons with `!== null && !== undefined` first. -/
def toNumLoose : JSVal → Option JSNum
  | .num q => some (.val q)
  | .inf neg => some (.inf neg)
  | .nan => none
  | .str s => jsStringToNumber s.data
  | .null => some (.val 0)
  | .undefined => none

/-- A cell is "present": the model of
`v !== null && v !== '' && v !== undefined` from `getLastValidRow` and of the
identical triple check in `getLastValidObject`. -/
def presentVal : JSVal → Bool
  | .null => false
  | .undefined => false
  | .str s => !(s == "")
  | _ => true

-- ─── Backward scanning (extractor.js) ────────────────────────────────────────

/-- Shared backward scan.  `scanBack a ok lo i` models the loop
`for (let j = i; j >= lo; j--) { if (ok a[j]) return a[j]; }` of the three
extraction functions: it returns the element at the largest index in
`[lo, i]` satisfying `ok`, or `none`. -/
def scanBack (a : List α) (ok : α → Bool) (lo : Nat) : Nat → Option α
  | 0 =>
    if lo = 0 then
      match a[0]? with
      | some x => if ok x then some x else none
      | none => none
    else none
  | i+1 =>
    if i+1 < lo then none
    else
      match a[i+1]? with
      | some x => if ok x then some x else scanBack a ok lo i
      | none => scanBack a ok lo i

/-- A row of an array-of-arrays feed.  `none` models a `null`/`undefined`
element in the outer array (the source guards each row with `if (row && …)`);
`some cells` is an actual row, any cell of which may itself be null/empty. -/
abbrev JSRow := Option (List JSVal)

/-- The loop-body test of `getLastValidRow`:
`row && row[colIndex] !== null && row[colIndex] !== '' && row[colIndex] !== undefined`.
Indexing past the end of a row yields `undefined`. -/
def rowOk (colIndex : Nat) : JSRow → Bool
  | none => false
  | some row => presentVal (row.getD colIndex JSVal.undefined)

/-- `getLastValidRow(arr, colIndex, maxSteps = 5)` from extractor.js: from an
array-of-arrays with header at index 0, the last row (stepping back at most
`maxSteps` rows, never into the header) whose cell at `colIndex` is present;
if none is found within the window, the very last row is returned as a
fallback.  The outer `Option` is the JS `null` return for a missing payload
or one with fewer than 2 rows. -/
def getLastValidRow (arr : Option (List JSRow)) (colIndex : Nat) (maxSteps : Nat := 5) :
    Option JSRow :=
  match arr with
  | none => none
  | some a =>
    if a.length < 2 then none
    else
      match scanBack a (rowOk colIndex) (max 1 (a.length - maxSteps)) (a.length - 1) with
      | some r => some r
      | none => a[a.length - 1]?

/-- The loop-body test of `getLastValidObject`:
`(!filter || filter(item)) && item[field] !== null && item[field] !== undefined && item[field] !== ''`. -/
def objOk {α : Type} (field : α → JSVal) (filter : Option (α → Bool)) (x : α) : Bool :=
  (match filter with
   | some f => f x
   | none => true) && presentVal (field x)

/-- `getLastValidObject(arr, field, filter = null, maxSteps = 10)` from
extractor.js: the last item within the backward window whose `field` is
present and which passes the optional filter. -/
def getLastValidObject (arr : Option (List α)) (field : α → JSVal)
    (filter : Option (α → Bool) := none) (maxSteps : Nat := 10) : Option α :=
  match arr with
  | none => none
  | some a =>
    if a.length = 0 then none
    else scanBack a (objOk field filter) (a.length - maxSteps) (a.length - 1)

/-- A record of the multi-channel array-of-objects feeds (x-rays, protons,
electrons): the three fields read by the extractor. -/
structure SWRecord where
  time_tag : JSVal
  energy : JSVal
  flux : JSVal
deriving DecidableEq, Repr

/-- The loop-body test of `getLastValidByEnergy`:
`item.energy === energyLabel && item.flux !== null && item.flux !== undefined`. -/
def energyOk (label : String) (r : SWRecord) : Bool :=
  r.energy == JSVal.str label && !(r.flux == JSVal.null) && !(r.flux == JSVal.undefined)

/-- `getLastValidByEnergy(arr, energyLabel, maxMinutes = 5)` from
extractor.js: walk backward over at most `maxMinutes * 10` records for the
latest record of the requested energy channel with a non-null flux; no
fallback. -/
def getLastValidByEnergy (arr : Option (List SWRecord)) (label : String)
    (maxMinutes : Nat := 5) : Option SWRecord :=
  match arr with
  | none => none
  | some a =>
    if a.length = 0 then none
    else scanBack a (energyOk label) (a.length - maxMinutes * 10) (a.length - 1)

-- ─── Aurora text parsing (extractor.js) ──────────────────────────────────────

/-- The filter of `parseAuroraText`: keep lines whose trim is non-empty and
that do not start with the comment marker `#`
(`l.trim() && !l.startsWith('#')`). -/
def keepLine (l : List Char) : Bool :=
  !(trimChars l).isEmpty && !(l.head? == some '#')

/-- One iteration body of the `parseAuroraText` loop on a kept line: trim it
(the `if (!line) continue` guard is subsumed: kept lines trim non-empty),
split on whitespace and `parseFloat` the final token; `none` when the token
does not parse (`isNaN`). -/
def auroraParseLine (l : List Char) : Option JSNum :=
  let line := trimChars l
  if line.isEmpty then none
  else jsParseFloat (lastTokenOf line)

/-- `parseAuroraText(text)` from extractor.js: drop blank and `#`-comment
lines, then walk backward for the last line whose final whitespace-delimited
token parses as a number, returning the parsed value together with the
trimmed line.  The empty text (JS falsy) and an all-filtered text yield
`none`. -/
def parseAuroraText (text : List Char) : Option (JSNum × List Char) :=
  if text.isEmpty then none
  else
    let lines := (splitOnPred (fun c => c == '\n') text).filter keepLine
    if lines.length = 0 then none
    else
      match scanBack lines (fun l => (auroraParseLine l).isSome) 0 (lines.length - 1) with
      | some l =>
        match auroraParseLine l with
        | some v => some (v, trimChars l)
        | none => none
      | none => none

-- ─── Aggregation: fetchAll (extractor.js) ────────────────────────────────────

/-- One settled result of `Promise.allSettled`: a fulfilled payload or a
rejection whose `reason?.message` may be absent. -/
inductive Settled (α : Type) where
  | fulfilled (v : α)
  | rejected (msg : Option String)
deriving DecidableEq, Repr

/-- Whether a settled result is a rejection. -/
def Settled.isRejected : Settled α → Bool
  | .rejected _ => true
  | .fulfilled _ => false

/-- The payload half of `getResult`: the fulfilled value, or `null`. -/
def Settled.val : Settled α → Option α
  | .fulfilled v => some v
  | .rejected _ => none

/-- A per-feed failure record pushed by `getResult`:
`{ feed: name, error: reason?.message || 'Unknown error' }`. -/
structure FeedError where
  feed : String
  error : String
deriving DecidableEq, Repr

/-- The error half of `getResult`: the single failure record contributed by a
rejected feed, nothing for a fulfilled one. -/
def getErr (name : String) : Settled α → List FeedError
  | .rejected m => [⟨name, m.getD "Unknown error"⟩]
  | .fulfilled _ => []

/-- `parseFloat` applied to an arbitrary value (the JS call first stringifies
its argument: numbers round-trip, `null`/`undefined` stringify to words that
do not parse). -/
def jsParseFloatVal : JSVal → JSVal
  | .num q => .num q
  | .nan => .nan
  | .inf n => .inf n
  | .str s =>
    match jsParseFloat s.data with
    | some n => n.toVal
    | none => .nan
  | .null => .nan
  | .undefined => .nan

/-- The solar-wind magnetic-field summary built from the selected row. -/
structure MagSummary where
  time_tag : JSVal
  bx_gsm : JSVal
  by_gsm : JSVal
  bz_gsm : JSVal
  bt : JSVal
deriving DecidableEq, Repr

/-- The solar-wind plasma summary built from the selected row. -/
structure PlasmaSummary where
  time_tag : JSVal
  density : JSVal
  speed : JSVal
  temperature : JSVal
deriving DecidableEq, Repr

/-- An item of the 1-minute Kp feed (array-of-objects); the selected item is
stored in the snapshot unchanged (`kp_index_1m: kp1mItem`). -/
structure KpObj where
  time_tag : JSVal
  kp_index : JSVal
  estimated_kp : JSVal
deriving DecidableEq, Repr

/-- The official 3-hour Kp summary built from the final row. -/
structure KpOfficialSummary where
  time_tag : JSVal
  kp : JSVal
  kp_value : JSVal
deriving DecidableEq, Repr

/-- An item of the F10.7 feed; the summary copies both fields. -/
structure F107Obj where
  time_tag : JSVal
  flux : JSVal
deriving DecidableEq, Repr

/-- The aurora hemispheric-power summary. -/
structure AuroraSummary where
  hemispheric_power_gw : JSVal
  raw_line : List Char
deriving DecidableEq, Repr

/-- The `data` object of a `fetchAll` snapshot: one optional normalized
reading per feed/band, `none` where the source stores `null`. -/
structure ExtractedData where
  solar_wind_mag : Option MagSummary
  solar_wind_plasma : Option PlasmaSummary
  kp_index_1m : Option KpObj
  kp_index_official : Option KpOfficialSummary
  xray_flux : Option SWRecord
  xray_flux_short : Option SWRecord
  proton_flux : Option SWRecord
  proton_flux_50 : Option SWRecord
  proton_flux_100 : Option SWRecord
  electron_flux : Option SWRecord
  electron_flux_08 : Option SWRecord
  f107_flux : Option F107Obj
  aurora_power : Option AuroraSummary
deriving DecidableEq, Repr

/-- The value returned by `fetchAll`: extraction timestamp, normalized data,
and the failure records of every feed that could not be read. -/
structure FetchAllResult where
  extraction_time : String
  data : ExtractedData
  errors : List FeedError
deriving DecidableEq, Repr

/-- The failure list assembled by the ten `getResult` calls of `fetchAll`, in
feed order. -/
def fetchAllErrors (rMag rPlasma : Settled (List JSRow)) (rKp1m : Settled (List KpObj))
    (rKpOff : Settled (List JSRow)) (rXray rProton rElectron rElectronDiff : Settled (List SWRecord))
    (rF107 : Settled (List F107Obj)) (rAurora : Settled (List Char)) : List FeedError :=
  getErr "Solar Wind Mag" rMag ++ getErr "Solar Wind Plasma" rPlasma ++
  getErr "Kp Index 1m" rKp1m ++ getErr "Kp Index Official" rKpOff ++
  getErr "X-Ray Flux" rXray ++ getErr "Proton Flux" rProton ++
  getErr "Electron Flux" rElectron ++ getErr "Electron Flux (Differential)" rElectronDiff ++
  getErr "F10.7 Flux" rF107 ++ getErr "Aurora Power" rAurora

/-- The solar-wind magnetic-field extraction step: select a row with
`getLastValidRow(magData, 3)` and build the summary
(`magRow ? {...} : null`; a `null` fallback row is falsy and also yields
`null`). -/
def extractMag (magData : Option (List JSRow)) : Option MagSummary :=
  match getLastValidRow magData 3 with
  | some (some row) =>
    some ⟨row.getD 0 JSVal.undefined, jsParseFloatVal (row.getD 1 JSVal.undefined),
          jsParseFloatVal (row.getD 2 JSVal.undefined), jsParseFloatVal (row.getD 3 JSVal.undefined),
          jsParseFloatVal (row.getD 6 JSVal.undefined)⟩
  | _ => none

/-- The solar-wind plasma extraction step: `getLastValidRow(plasmaData, 2)`
with header `["time_tag","density","speed","temperature"]`. -/
def extractPlasma (plasmaData : Option (List JSRow)) : Option PlasmaSummary :=
  match getLastValidRow plasmaData 2 with
  | some (some row) =>
    some ⟨row.getD 0 JSVal.undefined, jsParseFloatVal (row.getD 1 JSVal.undefined),
          jsParseFloatVal (row.getD 2 JSVal.undefined), jsParseFloatVal (row.getD 3 JSVal.undefined)⟩
  | _ => none

/-- The official-Kp extraction step: the plain last row when more than one
row exists (`kpOffData && kpOffData.length > 1 ? kpOffData[len-1] : null`),
guarded by the row's own truthiness (`kpOffRow ? {...} : null`).  JS
`row[row.length - 1]` on an empty row reads index `-1` and yields
`undefined`; with truncated subtraction `row.getD 0` of an empty row is
likewise `undefined`. -/
def extractKpOfficial (kpOffData : Option (List JSRow)) : Option KpOfficialSummary :=
  let kpOffRow : JSRow :=
    match kpOffData with
    | some l => if 1 < l.length then l.getD (l.length - 1) none else none
    | none => none
  match kpOffRow with
  | some row =>
    some ⟨row.getD 0 JSVal.undefined, row.getD (row.length - 1) JSVal.undefined,
          jsParseFloatVal (row.getD (row.length - 1) JSVal.undefined)⟩
  | none => none

/-- A per-band extraction step of the multi-channel feeds: select via
`getLastValidByEnergy` and copy the three fields into a fresh record. -/
def extractBand (data : Option (List SWRecord)) (label : String) : Option SWRecord :=
  (getLastValidByEnergy data label).map (fun it => ⟨it.time_tag, it.energy, it.flux⟩)

/-- The F10.7 extraction step: the plain last item
(`f107Data && f107Data.length > 0 ? f107Data[len-1] : null`), both fields
copied. -/
def extractF107 (f107Data : Option (List F107Obj)) : Option F107Obj :=
  match f107Data with
  | some l =>
    if 0 < l.length then (l[l.length - 1]?).map (fun it => ⟨it.time_tag, it.flux⟩) else none
  | none => none

/-- The aurora extraction step: `parseAuroraText` and repackage
(`auroraParsed ? { hemispheric_power_gw, raw_line } : null`). -/
def extractAurora (auroraText : List Char) : Option AuroraSummary :=
  (parseAuroraText auroraText).map (fun p => ⟨p.1.toVal, p.2⟩)

/-- The `data` object assembled by `fetchAll` from the settled payloads:
the shape-specific extraction steps of extractor.js lines 195-283 in source
order. -/
def fetchAllData (magData plasmaData : Option (List JSRow)) (kp1mData : Option (List KpObj))
    (kpOffData : Option (List JSRow)) (xrayData protonData electronData electronDiffData : Option (List SWRecord))
    (f107Data : Option (List F107Obj)) (auroraText : List Char) : ExtractedData where
  solar_wind_mag := extractMag magData
  solar_wind_plasma := extractPlasma plasmaData
  -- the selected 1-minute Kp item is stored unchanged (`kp_index_1m: kp1mItem`)
  kp_index_1m := getLastValidObject kp1mData KpObj.kp_index
  kp_index_official := extractKpOfficial kpOffData
  xray_flux := extractBand xrayData "0.1-0.8nm"
  xray_flux_short := extractBand xrayData "0.05-0.4nm"
  proton_flux := extractBand protonData ">=10 MeV"
  proton_flux_50 := extractBand protonData ">=50 MeV"
  proton_flux_100 := extractBand protonData ">=100 MeV"
  electron_flux := extractBand electronData ">=2 MeV"
  electron_flux_08 := extractBand electronDiffData "865 keV"
  f107_flux := extractF107 f107Data
  aurora_power := extractAurora auroraText

/-- `fetchAll` from extractor.js, as a function of the ten settled retrieval
outcomes (the network part of each feed is summarized by its `Settled`
result; `Promise.allSettled` never rejects, so the body is total).  Builds
the unified snapshot: per-feed failures become `errors` entries and a `none`
data field, successes go through the shape-specific extraction steps; a
failed aurora text feed is replaced by the empty string
(`getResult(9, 'Aurora Power') || ''`). -/
def fetchAll (timestamp : String)
    (rMag rPlasma : Settled (List JSRow)) (rKp1m : Settled (List KpObj))
    (rKpOff : Settled (List JSRow)) (rXray rProton rElectron rElectronDiff : Settled (List SWRecord))
    (rF107 : Settled (List F107Obj)) (rAurora : Settled (List Char)) : FetchAllResult :=
  ⟨timestamp,
   fetchAllData rMag.val rPlasma.val rKp1m.val rKpOff.val rXray.val rProton.val
     rElectron.val rElectronDiff.val rF107.val ((rAurora.val).getD []),
   fetchAllErrors rMag rPlasma rKp1m rKpOff rXray rProton rElectron rElectronDiff rF107 rAurora⟩

-- ─── Alert evaluation (alerts.js) ────────────────────────────────────────────

/-- A severity level (`SEV` entry): numeric level, emoji and label. -/
structure Sev where
  level : Nat
  emoji : String
  label : String
deriving DecidableEq, Repr

/-- `SEV.NOMINAL`. -/
def SEV_NOMINAL : Sev := ⟨0, "✅", "NOMINAL"⟩

/-- `SEV.INFO`. -/
def SEV_INFO : Sev := ⟨1, "🟢", "INFO"⟩

/-- `SEV.WATCH`. -/
def SEV_WATCH : Sev := ⟨2, "⚠️", "WATCH"⟩

/-- `SEV.WARNING`. -/
def SEV_WARNING : Sev := ⟨3, "🟠", "WARNING"⟩

/-- `SEV.CRITICAL`. -/
def SEV_CRITICAL : Sev := ⟨4, "🔴", "CRITICAL"⟩

/-- The static threshold table `THRESHOLDS` of alerts.js. -/
structure Thresholds where
  bzSouth : Rat
  windSpeed : Rat
  kpMinorStorm : Rat
  kpSevereStorm : Rat
  mClassFlare : Rat
  xClassFlare : Rat
  s1Radiation : Rat
  electronAlert : Rat
  highDrag : Rat
  auroraActive : Rat

/-- The concrete NOAA threshold values. -/
def THRESHOLDS : Thresholds :=
  { bzSouth := -5
    windSpeed := 500
    kpMinorStorm := 5
    kpSevereStorm := 7
    mClassFlare := 1 / 100000
    xClassFlare := 1 / 10000
    s1Radiation := 10
    electronAlert := 1000
    highDrag := 150
    auroraActive := 50 }

/-- Read a field through JavaScript optional chaining:
`extracted.foo?.bar` is `undefined` when `foo` is `null`. -/
def optField {α : Type} (o : Option α) (f : α → JSVal) : JSVal :=
  match o with
  | none => JSVal.undefined
  | some x => f x

/-- Order comparison against a numeric value as ordered in JS relational
operators once NaN is excluded: `none` (NaN) compares false. -/
def numLe (v : Option JSNum) (t : Rat) : Bool :=
  match v with
  | some (.val q) => decide (q ≤ t)
  | some (.inf neg) => neg
  | none => false

/-- `t ≤ v` over JS numbers, NaN compares false. -/
def numGe (v : Option JSNum) (t : Rat) : Bool :=
  match v with
  | some (.val q) => decide (t ≤ q)
  | some (.inf neg) => !neg
  | none => false

/-- `t < v` over JS numbers, NaN compares false. -/
def numGt (v : Option JSNum) (t : Rat) : Bool :=
  match v with
  | some (.val q) => decide (t < q)
  | some (.inf neg) => !neg
  | none => false

/-- The guarded comparison pattern of alerts.js:
`x !== null && x !== undefined && x <= t`. -/
def jsDefLe (v : JSVal) (t : Rat) : Bool :=
  !(v == JSVal.null) && !(v == JSVal.undefined) && numLe (toNumLoose v) t

/-- `x !== null && x !== undefined && x >= t`. -/
def jsDefGe (v : JSVal) (t : Rat) : Bool :=
  !(v == JSVal.null) && !(v == JSVal.undefined) && numGe (toNumLoose v) t

/-- `x !== null && x !== undefined && x > t`. -/
def jsDefGt (v : JSVal) (t : Rat) : Bool :=
  !(v == JSVal.null) && !(v == JSVal.undefined) && numGt (toNumLoose v) t

/-- JavaScript truthiness of the modelled values (`xFlux ? … : 'N/A'`). -/
def jsTruthy : JSVal → Bool
  | .null => false
  | .undefined => false
  | .nan => false
  | .num q => !(q == 0)
  | .str s => !(s == "")
  | .inf _ => true

/-- `Number.prototype.toFixed(1)` on an exact rational: sign first, then the
magnitude rounded to one decimal with ties rounded up, per the ECMAScript
algorithm (the binary-float representation error of the source runtime is
not modelled). -/
def ratToFixed1 (q : Rat) : String :=
  if q < 0 then
    let n := (⌊(-q) * 10 + 1 / 2⌋).toNat
    "-" ++ toString (n / 10) ++ "." ++ toString (n % 10)
  else
    let n := (⌊q * 10 + 1 / 2⌋).toNat
    toString (n / 10) ++ "." ++ toString (n % 10)

/-- `toFixed(1)` lifted to JS numbers (`(NaN).toFixed(1) = "NaN"` etc.). -/
def numToFixed1 : Option JSNum → String
  | none => "NaN"
  | some (.inf neg) => if neg then "-Infinity" else "Infinity"
  | some (.val q) => ratToFixed1 q

/-- JS division of a (non-NaN-guarded) value by a positive rational constant,
for `flux / 1e-4` inside `classifyFlare`. -/
def numDiv (v : Option JSNum) (d : Rat) : Option JSNum :=
  match v with
  | some (.val q) => some (.val (q / d))
  | some (.inf neg) => some (.inf neg)
  | none => none

/-- `classifyFlare(flux)` from alerts.js: the A/B/C/M/X flare class with one
decimal. -/
def classifyFlare (flux : JSVal) : String :=
  let v := toNumLoose flux
  if numGe v (1 / 10000) then "X" ++ numToFixed1 (numDiv v (1 / 10000))
  else if numGe v (1 / 100000) then "M" ++ numToFixed1 (numDiv v (1 / 100000))
  else if numGe v (1 / 1000000) then "C" ++ numToFixed1 (numDiv v (1 / 1000000))
  else if numGe v (1 / 10000000) then "B" ++ numToFixed1 (numDiv v (1 / 10000000))
  else "A" ++ numToFixed1 (numDiv v (1 / 100000000))

/-- One entry of the `metrics` object: its data fields in object-key order
(threshold constants included, as in the source) and the computed status.
The purely presentational `flare_class` string of the x-ray metric is kept
as a `JSVal.str`. -/
structure MetricEntry where
  vals : List (String × JSVal)
  status : Sev
deriving DecidableEq, Repr

/-- An alert pushed by `evaluate`; the `message`/`details` presentation
strings (template literals over the same data) are not modelled. -/
structure Alert where
  id : String
  severity : Sev
deriving DecidableEq, Repr

/-- Insertion of an alert into a list sorted by descending severity level.
The inserted alert was pushed earlier than every element of the list, so for
stability it is placed before the first element whose level does not exceed
its own: equal-severity alerts keep their push order, as under the stable
`alerts.sort((a, b) => b.severity.level - a.severity.level)` of the source. -/
def insertDesc (a : Alert) : List Alert → List Alert
  | [] => [a]
  | b :: bs => if b.severity.level ≤ a.severity.level then a :: b :: bs else b :: insertDesc a bs

/-- Stable sort by descending severity level. -/
def sortAlerts : List Alert → List Alert
  | [] => []
  | a :: as => insertDesc a (sortAlerts as)

/-- The value returned by `evaluate`: the sorted alert list and the metrics
map (an association list in insertion order). -/
structure Evaluation where
  alerts : List Alert
  metrics : List (String × MetricEntry)
deriving DecidableEq, Repr

/-- `evaluate(extracted)` from alerts.js: evaluates all alert conditions
against the extracted data, returning the active alerts (sorted by
descending severity) and a per-metric status summary with exactly the seven
keys `solar_wind`, `kp_index`, `xray_flux`, `proton_flux`, `electron_flux`,
`f107_flux`, `aurora_power`. -/
def evaluate (extracted : ExtractedData) : Evaluation :=
  -- 1. Geomagnetic storm early warning (solar wind + IMF)
  let bz := optField extracted.solar_wind_mag MagSummary.bz_gsm
  let speed := optField extracted.solar_wind_plasma PlasmaSummary.speed
  let bzAlert := jsDefLe bz THRESHOLDS.bzSouth
  let speedAlert := jsDefGt speed THRESHOLDS.windSpeed
  let swStatus := if bzAlert && speedAlert then SEV_CRITICAL else SEV_NOMINAL
  let swMetric : MetricEntry :=
    ⟨[("bz_gsm", bz), ("speed", speed), ("bz_threshold", JSVal.num THRESHOLDS.bzSouth),
      ("speed_threshold", JSVal.num THRESHOLDS.windSpeed)], swStatus⟩
  let alerts1 : List Alert :=
    if bzAlert && speedAlert then [⟨"GEOMAG_STORM_IMMINENT", SEV_CRITICAL⟩] else []
  -- 2. Kp index
  let kp := optField extracted.kp_index_1m KpObj.kp_index
  let kpSev :=
    if jsDefGe kp THRESHOLDS.kpSevereStorm then SEV_CRITICAL
    else if jsDefGe kp THRESHOLDS.kpMinorStorm then SEV_WARNING
    else SEV_NOMINAL
  let kpMetric : MetricEntry :=
    ⟨[("kp_index", kp), ("estimated_kp", optField extracted.kp_index_1m KpObj.estimated_kp),
      ("threshold_minor", JSVal.num THRESHOLDS.kpMinorStorm),
      ("threshold_severe", JSVal.num THRESHOLDS.kpSevereStorm)], kpSev⟩
  let alerts2 : List Alert :=
    alerts1 ++ (if SEV_WARNING.level ≤ kpSev.level then [⟨"GEOMAG_STORM_ACTIVE", kpSev⟩] else [])
  -- 3. X-ray flux (solar flare / radio blackout)
  let xFlux := optField extracted.xray_flux SWRecord.flux
  let xSev :=
    if jsDefGe xFlux THRESHOLDS.xClassFlare then SEV_CRITICAL
    else if jsDefGe xFlux THRESHOLDS.mClassFlare then SEV_WARNING
    else SEV_NOMINAL
  let flareClass := if jsTruthy xFlux then classifyFlare xFlux else "N/A"
  let xMetric : MetricEntry :=
    ⟨[("flux", xFlux), ("flare_class", JSVal.str flareClass),
      ("threshold_m", JSVal.num THRESHOLDS.mClassFlare),
      ("threshold_x", JSVal.num THRESHOLDS.xClassFlare)], xSev⟩
  let alerts3 : List Alert :=
    alerts2 ++ (if SEV_WARNING.level ≤ xSev.level then [⟨"RADIO_BLACKOUT", xSev⟩] else [])
  -- 4. Proton flux (radiation storm)
  let pFlux := optField extracted.proton_flux SWRecord.flux
  let pSev := if jsDefGe pFlux THRESHOLDS.s1Radiation then SEV_WARNING else SEV_NOMINAL
  let pMetric : MetricEntry :=
    ⟨[("flux", pFlux), ("energy", JSVal.str ">=10 MeV"),
      ("threshold", JSVal.num THRESHOLDS.s1Radiation)], pSev⟩
  let alerts4 : List Alert :=
    alerts3 ++ (if SEV_WARNING.level ≤ pSev.level then [⟨"RADIATION_STORM", pSev⟩] else [])
  -- 5. Electron flux (deep dielectric charging)
  let eFlux := optField extracted.electron_flux SWRecord.flux
  let eSev := if jsDefGe eFlux THRESHOLDS.electronAlert then SEV_WARNING else SEV_NOMINAL
  let eMetric : MetricEntry :=
    ⟨[("flux", eFlux), ("energy", JSVal.str ">=2 MeV"),
      ("threshold", JSVal.num THRESHOLDS.electronAlert)], eSev⟩
  let alerts5 : List Alert :=
    alerts4 ++ (if SEV_WARNING.level ≤ eSev.level then [⟨"DIELECTRIC_CHARGING", eSev⟩] else [])
  -- 6. F10.7 (atmospheric drag)
  let f107 := optField extracted.f107_flux F107Obj.flux
  let fSev := if jsDefGe f107 THRESHOLDS.highDrag then SEV_WATCH else SEV_NOMINAL
  let fMetric : MetricEntry :=
    ⟨[("flux", f107), ("unit", JSVal.str "SFU"),
      ("threshold", JSVal.num THRESHOLDS.highDrag)], fSev⟩
  let alerts6 : List Alert :=
    alerts5 ++ (if SEV_WATCH.level ≤ fSev.level then [⟨"HIGH_ATMOSPHERIC_DRAG", fSev⟩] else [])
  -- 7. Aurora hemispheric power
  let aurGW := optField extracted.aurora_power AuroraSummary.hemispheric_power_gw
  let aSev := if jsDefGe aurGW THRESHOLDS.auroraActive then SEV_INFO else SEV_NOMINAL
  let aMetric : MetricEntry :=
    ⟨[("hemispheric_power_gw", aurGW), ("threshold", JSVal.num THRESHOLDS.auroraActive)], aSev⟩
  let alerts7 : List Alert :=
    alerts6 ++ (if SEV_INFO.level ≤ aSev.level then [⟨"AURORA_ACTIVE", aSev⟩] else [])
  { alerts := sortAlerts alerts7
    metrics :=
      [("solar_wind", swMetric), ("kp_index", kpMetric), ("xray_flux", xMetric),
       ("proton_flux", pMetric), ("electron_flux", eMetric), ("f107_flux", fMetric),
       ("aurora_power", aMetric)] }

-- ─── Snapshot cache (server.js) ──────────────────────────────────────────────

/-- `CACHE_TTL = 5 * 60 * 1000` milliseconds. -/
def CACHE_TTL : Nat := 5 * 60 * 1000

/-- The module-level `memoryCache` object of server.js.  The cache logic only
ever tests `data` for null-ness and reads `lastFetchBaseMs`; the payload,
evaluation and history types are therefore parameters (instantiated with
`FetchAllResult`, `Evaluation` and the raw history in the running server). -/
structure MemCache (δ ε η : Type) where
  data : Option δ
  evaluation : Option ε
  history : Option η
  lastFetchBaseMs : Nat
deriving DecidableEq, Repr

/-- The mutable server state around `getFreshData`: the memory cache, the
`isFetching` flag, and an instrumentation counter of refresh cycles started
(the id of the refresh currently in flight, when `isFetching`, is the
counter's current value).  `fetchPromise` needs no separate model: it is
assigned before the refresh body first yields and nulled together with
`isFetching` in the `finally`, so `isFetching = true` always identifies the
unique in-flight refresh. -/
structure ServerState (δ ε η : Type) where
  memoryCache : MemCache δ ε η
  isFetching : Bool
  fetchStartCount : Nat
deriving DecidableEq, Repr

/-- What one `getFreshData()` call does in its first synchronous segment
(everything up to and including starting the refresh body happens without an
await, so it is one atomic step of the event loop): an instant cache hit, a
join of the in-flight refresh, or the start of a new refresh. -/
inductive Outcome (δ ε η : Type) where
  | hit (c : MemCache δ ε η)
  | joined (rid : Nat)
  | started (rid : Nat)
deriving DecidableEq, Repr

/-- The synchronous entry segment of `getFreshData()` (server.js lines
69-84): return the memory cache if fresh, else join an in-flight refresh,
else mark `isFetching` and start a refresh.  `now - lastFetchBaseMs` uses
truncated subtraction, which agrees with the JS signed comparison (a
negative age is `< CACHE_TTL` in both). -/
def getFreshDataEntry (s : ServerState δ ε η) (now : Nat) :
    ServerState δ ε η × Outcome δ ε η :=
  if s.memoryCache.data.isSome ∧ now - s.memoryCache.lastFetchBaseMs < CACHE_TTL then
    (s, .hit s.memoryCache)
  else if s.isFetching then
    (s, .joined s.fetchStartCount)
  else
    ({ s with isFetching := true, fetchStartCount := s.fetchStartCount + 1 },
     .started (s.fetchStartCount + 1))

/-- `k` consecutive `getFreshData()` entry segments at the same instant with
no refresh completion in between: the model of `k` logically concurrent
callers arriving on the single-threaded event loop. -/
def runGets (s : ServerState δ ε η) (now : Nat) : Nat → ServerState δ ε η × List (Outcome δ ε η)
  | 0 => (s, [])
  | k+1 =>
    let p := getFreshDataEntry s now
    let r := runGets p.1 now k
    (r.1, p.2 :: r.2)

/-- The outcome of the Vercel-Blob read attempted on a cold start
(server.js lines 87-109): the `list`/`fetch`/`json` chain threw (caught
internally, falls through to the NOAA fetch), found no blob, or parsed a
persisted cache. -/
inductive BlobOutcome (δ ε η : Type) where
  | readError (msg : String)
  | notFound
  | found (bc : MemCache δ ε η)
deriving DecidableEq, Repr

/-- The result of one refresh body run: the memory cache it leaves behind,
the value it returns to every waiter (`Except` models the re-thrown error of
the no-previous-snapshot case), whether `extractor.fetchAll` was invoked
(0 or 1 times), and whether a fresh persisted blob snapshot was adopted. -/
structure RefreshOutcome (δ ε η : Type) where
  memoryCache : MemCache δ ε η
  result : Except String (MemCache δ ε η)
  extractorFetches : Nat
  blobAdopted : Bool
deriving Repr

/-- Steps 4-5 of the refresh body (server.js lines 111-152): invoke the NOAA
fetch (`Promise.all([fetchAll, fetchRawHistory])`, summarized by its settled
result `noaa`); on success install a wholly new memory cache stamped with
the install-time clock; on failure return the stale memory cache if one
exists, else re-throw. -/
def noaaStep (m0 : MemCache δ ε η) (noaa : Except String (δ × η)) (evalFn : δ → ε)
    (nowInstall : Nat) : RefreshOutcome δ ε η :=
  match noaa with
  | .ok dh =>
    let mc : MemCache δ ε η := ⟨some dh.1, some (evalFn dh.1), some dh.2, nowInstall⟩
    ⟨mc, .ok mc, 1, false⟩
  | .error e =>
    if m0.data.isSome then ⟨m0, .ok m0, 1, false⟩
    else ⟨m0, .error e, 1, false⟩

/-- The whole refresh body (server.js lines 84-153) as a function of its
environment: the memory cache at start, whether `BLOB_READ_WRITE_TOKEN` is
configured, the blob read outcome, and the settled NOAA fetch.  On a cold
start (no data in memory) with a token, a persisted cache still within TTL
of the caller's entry clock `nowStart` is adopted directly and no NOAA fetch
happens; any blob read error is absorbed. -/
def refreshBody (m0 : MemCache δ ε η) (token : Bool) (blob : BlobOutcome δ ε η)
    (noaa : Except String (δ × η)) (evalFn : δ → ε) (nowStart nowInstall : Nat) :
    RefreshOutcome δ ε η :=
  if m0.data.isNone ∧ token then
    match blob with
    | .found bc =>
      if nowStart - bc.lastFetchBaseMs < CACHE_TTL then ⟨bc, .ok bc, 0, true⟩
      else noaaStep m0 noaa evalFn nowInstall
    | _ => noaaStep m0 noaa evalFn nowInstall
  else noaaStep m0 noaa evalFn nowInstall

/-- Completion of the in-flight refresh: the refresh body's effect on the
server state (the `finally` clears `isFetching` and `fetchPromise` on both
paths) together with the value delivered to every waiter. -/
def completeRefresh (s : ServerState δ ε η) (token : Bool) (blob : BlobOutcome δ ε η)
    (noaa : Except String (δ × η)) (evalFn : δ → ε) (nowStart nowInstall : Nat) :
    ServerState δ ε η × Except String (MemCache δ ε η) :=
  let ro := refreshBody s.memoryCache token blob noaa evalFn nowStart nowInstall
  (⟨ro.memoryCache, false, s.fetchStartCount⟩, ro.result)

/-- The value a caller with a given entry outcome ends up receiving once the
in-flight refresh (if any) completes with result `r`: a cache hit already
returned its snapshot; the starter returns `await fetchPromise` and every
joiner awaits the same promise. -/
def deliver (r : Except String (MemCache δ ε η)) : Outcome δ ε η → Except String (MemCache δ ε η)
  | .hit c => .ok c
  | .joined _ => r
  | .started _ => r

/-- The evaluation hook installed by server.js line 121:
`evaluation: alerts.evaluate(result.data)`. -/
def liveEvalFn (r : FetchAllResult) : Evaluation := evaluate r.data


-- ─── Specification lemmas for the backward scan ──────────────────────────────

theorem scanBack_found {α : Type} (a : List α) (ok : α → Bool) (lo : Nat) (i j : Nat) (r : α)
    (hlo : lo ≤ j) (hji : j ≤ i) (hj : a[j]? = some r) (hok : ok r = true)
    (hafter : ∀ j', j < j' → j' ≤ i → ∀ x, a[j']? = some x → ok x = false) :
    scanBack a ok lo i = some r := by
  induction i with
  | zero =>
    have hj0 : j = 0 := Nat.le_zero.mp hji
    subst hj0
    have hlo0 : lo = 0 := Nat.le_zero.mp hlo
    subst hlo0
    simp only [scanBack, if_pos rfl]
    rw [hj]
    simp [hok]
  | succ i ih =>
    have hnot : ¬ (i + 1 < lo) := by omega
    rcases Nat.lt_or_ge j (i + 1) with hlt | hge
    · have hstep : scanBack a ok lo i = some r :=
        ih (by omega) (fun j' h1 h2 x hx => hafter j' h1 (by omega) x hx)
      simp only [scanBack, if_neg hnot]
      cases hx : a[i+1]? with
      | none => exact hstep
      | some x =>
        have hfx : ok x = false := hafter (i+1) (by omega) (by omega) x hx
        simp [hfx, hstep]
    · have hj1 : j = i + 1 := by omega
      subst hj1
      simp only [scanBack, if_neg hnot]
      rw [hj]
      simp [hok]

theorem scanBack_none_iff {α : Type} (a : List α) (ok : α → Bool) (lo : Nat) (i : Nat) :
    scanBack a ok lo i = none ↔
      ∀ j, lo ≤ j → j ≤ i → ∀ x, a[j]? = some x → ok x = false := by
  induction i with
  | zero =>
    constructor
    · intro h j h1 h2 x hx
      have hj0 : j = 0 := Nat.le_zero.mp h2
      subst hj0
      have hlo0 : lo = 0 := Nat.le_zero.mp h1
      subst hlo0
      simp only [scanBack, if_pos rfl] at h
      rw [hx] at h
      by_contra hok
      rw [Bool.not_eq_false] at hok
      simp [hok] at h
    · intro h
      simp only [scanBack]
      by_cases hlo : lo = 0
      · subst hlo
        simp only [if_pos rfl]
        cases hx : a[0]? with
        | none => rfl
        | some x => simp [h 0 (Nat.le_refl 0) (Nat.le_refl 0) x hx]
      · rw [if_neg hlo]
  | succ i ih =>
    by_cases hlt : i + 1 < lo
    · constructor
      · intro _ j h1 h2 x hx
        exact absurd (Nat.le_trans h1 h2) (by omega)
      · intro _
        simp only [scanBack, if_pos hlt]
    · simp only [scanBack, if_neg hlt]
      cases hx : a[i+1]? with
      | none =>
        rw [ih]
        constructor
        · intro h j h1 h2 x' hx'
          rcases Nat.lt_or_ge j (i+1) with hj | hj
          · exact h j h1 (by omega) x' hx'
          · have : j = i + 1 := by omega
            subst this
            rw [hx] at hx'
            exact Option.noConfusion hx'
        · intro h j h1 h2 x' hx'
          exact h j h1 (by omega) x' hx'
      | some x =>
        by_cases hok : ok x = true
        · simp only [hok, if_pos rfl]
          constructor
          · intro h
            exact Option.noConfusion h
          · intro h
            have := h (i+1) (by omega) (Nat.le_refl _) x hx
            rw [hok] at this
            exact Bool.noConfusion this
        · rw [Bool.not_eq_true] at hok
          simp only [hok, Bool.false_eq_true, if_false]
          rw [ih]
          constructor
          · intro h j h1 h2 x' hx'
            rcases Nat.lt_or_ge j (i+1) with hj | hj
            · exact h j h1 (by omega) x' hx'
            · have : j = i + 1 := by omega
              subst this
              rw [hx] at hx'
              cases hx'
              exact hok
          · intro h j h1 h2 x' hx'
            exact h j h1 (by omega) x' hx' 

theorem scanBack_some {α : Type} (a : List α) (ok : α → Bool) (lo : Nat) (i : Nat) (r : α)
    (h : scanBack a ok lo i = some r) :
    ok r = true ∧ ∃ j, lo ≤ j ∧ j ≤ i ∧ a[j]? = some r ∧
      ∀ j', j < j' → j' ≤ i → ∀ x, a[j']? = some x → ok x = false := by
  induction i with
  | zero =>
    by_cases hlo : lo = 0
    · subst hlo
      simp only [scanBack, if_pos rfl] at h
      cases hx : a[0]? with
      | none => rw [hx] at h; exact Option.noConfusion h
      | some x =>
        rw [hx] at h
        by_cases hok : ok x = true
        · simp only [hok, if_pos rfl] at h
          cases h
          exact ⟨hok, 0, Nat.le_refl 0, Nat.le_refl 0, hx,
            fun j' h1 h2 x' hx' => absurd (Nat.lt_of_lt_of_le h1 h2) (Nat.lt_irrefl 0)⟩
        · rw [Bool.not_eq_true] at hok
          simp [hok] at h
    · simp only [scanBack, if_neg hlo] at h
      exact Option.noConfusion h
  | succ i ih =>
    by_cases hlt : i + 1 < lo
    · simp only [scanBack, if_pos hlt] at h
      exact Option.noConfusion h
    · simp only [scanBack, if_neg hlt] at h
      cases hx : a[i+1]? with
      | none =>
        rw [hx] at h
        obtain ⟨hok, j, h1, h2, h3, h4⟩ := ih h
        refine ⟨hok, j, h1, by omega, h3, fun j' hj1 hj2 x' hx' => ?_⟩
        rcases Nat.lt_or_ge j' (i+1) with hj | hj
        · exact h4 j' hj1 (by omega) x' hx'
        · have : j' = i + 1 := by omega
          subst this
          rw [hx] at hx'
          exact Option.noConfusion hx'
      | some x =>
        rw [hx] at h
        by_cases hok : ok x = true
        · simp only [hok, if_pos rfl] at h
          cases h
          exact ⟨hok, i+1, by omega, Nat.le_refl _, hx,
            fun j' h1 h2 x' hx' => absurd (Nat.lt_of_lt_of_le h1 h2) (Nat.lt_irrefl _)⟩
        · rw [Bool.not_eq_true] at hok
          simp only [hok, Bool.false_eq_true, if_false] at h
          obtain ⟨hokr, j, h1, h2, h3, h4⟩ := ih h
          refine ⟨hokr, j, h1, by omega, h3, fun j' hj1 hj2 x' hx' => ?_⟩
          rcases Nat.lt_or_ge j' (i+1) with hj | hj
          · exact h4 j' hj1 (by omega) x' hx'
          · have : j' = i + 1 := by omega
            subst this
            rw [hx] at hx'
            cases hx'
            exact hok


-- ─── Concrete inputs used in scenario conjuncts and witnesses ────────────────

/-- The TabularRows scenario payload
`[["time","bz"],["t1",5.0],["t2",null],["t3",null]]`. -/
def exRows : List JSRow :=
  [some [JSVal.str "time", JSVal.str "bz"],
   some [JSVal.str "t1", JSVal.num 5],
   some [JSVal.str "t2", JSVal.null],
   some [JSVal.str "t3", JSVal.null]]

/-- The RecordStream scenario payload
`[{t:1,energy:"A",flux:2},{t:2,energy:"B",flux:3},{t:3,energy:"A",flux:null}]`. -/
def exRecs : List SWRecord :=
  [⟨JSVal.num 1, JSVal.str "A", JSVal.num 2⟩,
   ⟨JSVal.num 2, JSVal.str "B", JSVal.num 3⟩,
   ⟨JSVal.num 3, JSVal.str "A", JSVal.null⟩]

/-- An extracted-data object in which every feed field is absent. -/
def emptyExtracted : ExtractedData :=
  ⟨none, none, none, none, none, none, none, none, none, none, none, none, none⟩

theorem mem_drop_of_getElem {α : Type} {a : List α} {lo j : Nat} {x : α}
    (h : lo ≤ j) (hx : a[j]? = some x) : x ∈ a.drop lo := by
  have : (a.drop lo)[j - lo]? = some x := by
    rw [List.getElem?_drop]
    rwa [Nat.add_sub_cancel' h]
  exact List.getElem?_mem this

theorem getElem_of_mem_drop {α : Type} {a : List α} {lo : Nat} {x : α}
    (h : x ∈ a.drop lo) : ∃ j, lo ≤ j ∧ a[j]? = some x := by
  obtain ⟨m, hm⟩ := List.getElem?_of_mem h
  rw [List.getElem?_drop] at hm
  exact ⟨lo + m, Nat.le_add_right _ _, hm⟩

/-- C6: for every TabularRows payload with at least 2 rows in which every row
of the backward search window (the last `maxSteps` rows, header excluded) has
a null/empty/absent designated column, `getLastValidRow` returns the very
last row of the payload as a fallback, never none. -/
theorem C6_tabular_fallback (a : List JSRow) (colIndex maxSteps : Nat)
    (hlen : 2 ≤ a.length)
    (hmiss : ∀ x ∈ a.drop (max 1 (a.length - maxSteps)), rowOk colIndex x = false) :
    ∃ r, getLastValidRow (some a) colIndex maxSteps = some r ∧ a[a.length - 1]? = some r := by
  have hnone : scanBack a (rowOk colIndex) (max 1 (a.length - maxSteps)) (a.length - 1) = none :=
    (scanBack_none_iff _ _ _ _).mpr
      (fun j h1 _ x hx => hmiss x (mem_drop_of_getElem h1 hx))
  have hlast : a.length - 1 < a.length := by omega
  obtain ⟨r, hr⟩ : ∃ r, a[a.length - 1]? = some r := by
    rw [List.getElem?_eq_getElem hlast]
    exact ⟨_, rfl⟩
  refine ⟨r, ?_, hr⟩
  simp only [getLastValidRow]
  rw [if_neg (by omega), hnone, hr]

/-- Witness for C6: a payload whose two data rows both have a null designated
column; the final row is returned. -/
theorem C6_tabular_fallback_witness :
    ∃ r, getLastValidRow (some [some [JSVal.str "h"], some [JSVal.null], some [JSVal.null]]) 0 5 =
        some r ∧
      ([some [JSVal.str "h"], some [JSVal.null], some [JSVal.null]] : List JSRow)[3 - 1]? = some r :=
  C6_tabular_fallback [some [JSVal.str "h"], some [JSVal.null], some [JSVal.null]] 0 5
    (by decide) (by decide)

/-- C8: for every TabularRows payload with fewer than 2 rows — including the
empty and the absent payload — `getLastValidRow` returns none. -/
theorem C8_tabular_min_size :
    (∀ colIndex maxSteps : Nat, getLastValidRow none colIndex maxSteps = none) ∧
    (∀ (a : List JSRow) (colIndex maxSteps : Nat), a.length < 2 →
      getLastValidRow (some a) colIndex maxSteps = none) := by
  refine ⟨fun _ _ => rfl, fun a colIndex maxSteps h => ?_⟩
  simp [getLastValidRow, h]

/-- Witness for C8 at the empty and a one-row payload. -/
theorem C8_tabular_min_size_witness :
    getLastValidRow (some ([] : List JSRow)) 0 5 = none ∧
    getLastValidRow (some [some [JSVal.num 1]]) 3 5 = none :=
  ⟨C8_tabular_min_size.2 [] 0 5 (by decide),
   C8_tabular_min_size.2 [some [JSVal.num 1]] 3 5 (by decide)⟩

/-- C7: `getLastValidRow` scans backward from the last row over the window of
the last `maxSteps` rows, never reaching the header at index 0, and returns
the first row encountered whose designated column is present; on the
scenario payload `[["time","bz"],["t1",5.0],["t2",null],["t3",null]]` with
column 1 it returns the `t1` row.  Part 1: a present row all of whose
successors in the payload fail the validity test is returned.  Part 2: any
returned row that passes the validity test sits at an index of the window
(in particular at index ≥ 1), with every later row failing the test. -/
theorem C7_tabular_backward_scan :
    (∀ (a : List JSRow) (colIndex maxSteps j : Nat) (row : List JSVal),
      2 ≤ a.length →
      max 1 (a.length - maxSteps) ≤ j → j < a.length →
      a[j]? = some (some row) → presentVal (row.getD colIndex JSVal.undefined) = true →
      (∀ x ∈ a.drop (j + 1), rowOk colIndex x = false) →
      getLastValidRow (some a) colIndex maxSteps = some (some row)) ∧
    (∀ (a : List JSRow) (colIndex maxSteps : Nat) (r : JSRow),
      1 ≤ maxSteps → 2 ≤ a.length →
      getLastValidRow (some a) colIndex maxSteps = some r → rowOk colIndex r = true →
      ∃ j, max 1 (a.length - maxSteps) ≤ j ∧ 1 ≤ j ∧ j < a.length ∧ a[j]? = some r ∧
        ∀ j', j < j' → ∀ x, a[j']? = some x → rowOk colIndex x = false) ∧
    getLastValidRow (some exRows) 1 5 = some (some [JSVal.str "t1", JSVal.num 5]) := by
  refine ⟨?_, ?_, by decide⟩
  · intro a colIndex maxSteps j row hlen hjlo hjlen hj hok hafter
    have hscan : scanBack a (rowOk colIndex) (max 1 (a.length - maxSteps)) (a.length - 1) =
        some (some row) := by
      refine scanBack_found a _ _ _ j _ hjlo (by omega) hj ?_ ?_
      · simpa [rowOk] using hok
      · intro j' h1 _ x hx
        exact hafter x (mem_drop_of_getElem h1 hx)
    simp only [getLastValidRow]
    rw [if_neg (by omega), hscan]
  · intro a colIndex maxSteps r hms hlen hres hok
    simp only [getLastValidRow] at hres
    rw [if_neg (by omega)] at hres
    have hlo : max 1 (a.length - maxSteps) ≤ a.length - 1 := by omega
    cases hscan : scanBack a (rowOk colIndex) (max 1 (a.length - maxSteps)) (a.length - 1) with
    | some r' =>
      rw [hscan] at hres
      cases hres
      obtain ⟨hok', j, h1, h2, h3, h4⟩ := scanBack_some _ _ _ _ _ hscan
      refine ⟨j, h1, by omega, by omega, h3, ?_⟩
      intro j' hj' x hx
      rcases Nat.lt_or_ge j' a.length with hcase | hcase
      · exact h4 j' hj' (by omega) x hx
      · rw [List.getElem?_eq_none hcase] at hx
        exact Option.noConfusion hx
    | none =>
      rw [hscan] at hres
      have hall := (scanBack_none_iff _ _ _ _).mp hscan
      have : rowOk colIndex r = false :=
        hall (a.length - 1) hlo (Nat.le_refl _) r hres
      rw [hok] at this
      exact Bool.noConfusion this

/-- Witness for C7 at the scenario payload: the `t1` row at index 1 is
present and all later rows fail the validity test, so it is returned. -/
theorem C7_tabular_backward_scan_witness :
    getLastValidRow (some exRows) 1 5 = some (some [JSVal.str "t1", JSVal.num 5]) :=
  C7_tabular_backward_scan.1 exRows 1 5 1 [JSVal.str "t1", JSVal.num 5]
    (by decide) (by decide) (by decide) (by decide) (by decide) (by decide)

/-- C5: whenever `getLastValidByEnergy` returns a record, that record's
energy field equals the requested label and its flux is neither null nor
undefined; the record is the most recent match in the backward window (every
later record fails the match test); the function returns none exactly when
no record of the window matches; and on the scenario payload with label "A"
it returns the `t:1` record, skipping the `t:3` record with null flux. -/
theorem C5_channel_purity :
    (∀ (a : List SWRecord) (label : String) (m : Nat) (r : SWRecord),
      getLastValidByEnergy (some a) label m = some r →
      r.energy = JSVal.str label ∧ r.flux ≠ JSVal.null ∧ r.flux ≠ JSVal.undefined ∧
      ∃ j, a.length - m * 10 ≤ j ∧ j < a.length ∧ a[j]? = some r ∧
        ∀ j', j < j' → ∀ x, a[j']? = some x → energyOk label x = false) ∧
    (∀ (a : List SWRecord) (label : String) (m : Nat),
      getLastValidByEnergy (some a) label m = none ↔
        ∀ x ∈ a.drop (a.length - m * 10), energyOk label x = false) ∧
    getLastValidByEnergy (some exRecs) "A" 5 = some ⟨JSVal.num 1, JSVal.str "A", JSVal.num 2⟩ := by
  refine ⟨?_, ?_, by decide⟩
  · intro a label m r hres
    simp only [getLastValidByEnergy] at hres
    by_cases h0 : a.length = 0
    · rw [if_pos h0] at hres
      exact Option.noConfusion hres
    · rw [if_neg h0] at hres
      obtain ⟨hok, j, h1, h2, h3, h4⟩ := scanBack_some _ _ _ _ _ hres
      have hok' := hok
      simp only [energyOk, Bool.and_eq_true, beq_iff_eq, Bool.not_eq_true',
        beq_eq_false_iff_ne, ne_eq] at hok'
      refine ⟨hok'.1.1, hok'.1.2, hok'.2, j, h1, by omega, h3, ?_⟩
      intro j' hj' x hx
      rcases Nat.lt_or_ge j' a.length with hcase | hcase
      · exact h4 j' hj' (by omega) x hx
      · rw [List.getElem?_eq_none hcase] at hx
        exact Option.noConfusion hx
  · intro a label m
    simp only [getLastValidByEnergy]
    by_cases h0 : a.length = 0
    · rw [if_pos h0]
      have ha : a = [] := List.length_eq_zero.mp h0
      subst ha
      simp
    · rw [if_neg h0]
      rw [scanBack_none_iff]
      constructor
      · intro h x hx
        obtain ⟨j, hj1, hj2⟩ := getElem_of_mem_drop hx
        have hjlen : j < a.length := by
          by_contra hge
          rw [List.getElem?_eq_none (by omega)] at hj2
          exact Option.noConfusion hj2
        exact h j hj1 (by omega) x hj2
      · intro h j h1 _ x hx
        exact h x (mem_drop_of_getElem h1 hx)

/-- Witness for C5 at the scenario payload: the returned `t:1` record has the
requested energy label "A" and a non-null flux, and every record after index
0 fails the match test. -/
theorem C5_channel_purity_witness :
    (⟨JSVal.num 1, JSVal.str "A", JSVal.num 2⟩ : SWRecord).energy = JSVal.str "A" ∧
    (⟨JSVal.num 1, JSVal.str "A", JSVal.num 2⟩ : SWRecord).flux ≠ JSVal.null ∧
    (⟨JSVal.num 1, JSVal.str "A", JSVal.num 2⟩ : SWRecord).flux ≠ JSVal.undefined ∧
    ∃ j, exRecs.length - 5 * 10 ≤ j ∧ j < exRecs.length ∧
      exRecs[j]? = some ⟨JSVal.num 1, JSVal.str "A", JSVal.num 2⟩ ∧
      ∀ j', j < j' → ∀ x, exRecs[j']? = some x → energyOk "A" x = false :=
  C5_channel_purity.1 exRecs "A" 5 ⟨JSVal.num 1, JSVal.str "A", JSVal.num 2⟩ (by decide)

/-- C9: `parseAuroraText` returns none for every text all of whose lines are
blank (whitespace only) or `#`-comment lines, and more generally whenever
the final whitespace-delimited token of every kept (non-blank, non-comment)
line fails to parse as a number; there is no fallback. -/
theorem C9_plaintext_empty :
    (∀ text : List Char,
      (∀ l ∈ splitOnPred (fun c => c == '\n') text, trimChars l = [] ∨ l.head? = some '#') →
      parseAuroraText text = none) ∧
    (∀ text : List Char,
      (∀ l ∈ (splitOnPred (fun c => c == '\n') text).filter keepLine, auroraParseLine l = none) →
      parseAuroraText text = none) := by
  have main : ∀ text : List Char,
      (∀ l ∈ (splitOnPred (fun c => c == '\n') text).filter keepLine, auroraParseLine l = none) →
      parseAuroraText text = none := by
    intro text h
    by_cases hempty : text.isEmpty
    · simp [parseAuroraText, hempty]
    · simp only [parseAuroraText, hempty, Bool.false_eq_true, if_false]
      set lines := (splitOnPred (fun c => c == '\n') text).filter keepLine with hl
      by_cases hlen : lines.length = 0
      · rw [if_pos hlen]
      · rw [if_neg hlen]
        have hscan : scanBack lines (fun l => (auroraParseLine l).isSome) 0 (lines.length - 1) =
            none := by
          refine (scanBack_none_iff _ _ _ _).mpr ?_
          intro j _ _ x hx
          have hmem : x ∈ lines := List.getElem?_mem hx
          rw [h x hmem]
          rfl
        rw [hscan]
  refine ⟨?_, main⟩
  intro text h
  refine main text ?_
  intro l hl
  rw [List.mem_filter] at hl
  rcases h l hl.1 with htrim | hcomment
  · exfalso
    have := hl.2
    simp [keepLine, htrim] at this
  · exfalso
    have := hl.2
    simp [keepLine, hcomment] at this

/-- Witness for C9: a comments-and-blank-lines text, and a text whose only
kept line ends in a non-numeric token, both yield none. -/
theorem C9_plaintext_empty_witness :
    parseAuroraText "# Prepared by NOAA\n   \n# end".data = none ∧
    parseAuroraText "# h\n2024-01-01 aurora n/a".data = none :=
  ⟨C9_plaintext_empty.1 "# Prepared by NOAA\n   \n# end".data (by decide),
   C9_plaintext_empty.2 "# h\n2024-01-01 aurora n/a".data (by decide)⟩

/-- Number of failure records for a given feed name in a snapshot. -/
def countFeedErrors (R : FetchAllResult) (n : String) : Nat :=
  ((R.errors).filter (fun e => e.feed == n)).length

theorem filter_getErr {α : Type} (nm m : String) (r : Settled α) :
    ((getErr nm r).filter (fun e => e.feed == m)).length =
      if nm == m then (if r.isRejected then 1 else 0) else 0 := by
  cases r with
  | fulfilled v => simp [getErr, Settled.isRejected]
  | rejected msg =>
    cases h : nm == m with
    | true => simp [getErr, Settled.isRejected, h]
    | false => simp [getErr, Settled.isRejected, h]

/-- C3: for every combination of the ten per-feed retrieval outcomes,
`fetchAll` (total by construction: `Promise.allSettled` absorbs rejections)
produces a snapshot with exactly one failure record, keyed by the feed's
name, for each rejected feed and none for a fulfilled one, and every
rejected feed's data field (all of its bands) is none. -/
theorem C3_failure_absorption (ts : String)
    (rMag rPlasma : Settled (List JSRow)) (rKp1m : Settled (List KpObj))
    (rKpOff : Settled (List JSRow)) (rXray rProton rElectron rElectronDiff : Settled (List SWRecord))
    (rF107 : Settled (List F107Obj)) (rAurora : Settled (List Char))
    (R : FetchAllResult)
    (hR : R = fetchAll ts rMag rPlasma rKp1m rKpOff rXray rProton rElectron
      rElectronDiff rF107 rAurora) :
    (countFeedErrors R "Solar Wind Mag" = if rMag.isRejected then 1 else 0) ∧
    (countFeedErrors R "Solar Wind Plasma" = if rPlasma.isRejected then 1 else 0) ∧
    (countFeedErrors R "Kp Index 1m" = if rKp1m.isRejected then 1 else 0) ∧
    (countFeedErrors R "Kp Index Official" = if rKpOff.isRejected then 1 else 0) ∧
    (countFeedErrors R "X-Ray Flux" = if rXray.isRejected then 1 else 0) ∧
    (countFeedErrors R "Proton Flux" = if rProton.isRejected then 1 else 0) ∧
    (countFeedErrors R "Electron Flux" = if rElectron.isRejected then 1 else 0) ∧
    (countFeedErrors R "Electron Flux (Differential)" = if rElectronDiff.isRejected then 1 else 0) ∧
    (countFeedErrors R "F10.7 Flux" = if rF107.isRejected then 1 else 0) ∧
    (countFeedErrors R "Aurora Power" = if rAurora.isRejected then 1 else 0) ∧
    (rMag.isRejected = true → R.data.solar_wind_mag = none) ∧
    (rPlasma.isRejected = true → R.data.solar_wind_plasma = none) ∧
    (rKp1m.isRejected = true → R.data.kp_index_1m = none) ∧
    (rKpOff.isRejected = true → R.data.kp_index_official = none) ∧
    (rXray.isRejected = true → R.data.xray_flux = none ∧ R.data.xray_flux_short = none) ∧
    (rProton.isRejected = true → R.data.proton_flux = none ∧ R.data.proton_flux_50 = none ∧
      R.data.proton_flux_100 = none) ∧
    (rElectron.isRejected = true → R.data.electron_flux = none) ∧
    (rElectronDiff.isRejected = true → R.data.electron_flux_08 = none) ∧
    (rF107.isRejected = true → R.data.f107_flux = none) ∧
    (rAurora.isRejected = true → R.data.aurora_power = none) := by
  subst hR
  refine ⟨?_, ?_, ?_, ?_, ?_, ?_, ?_, ?_, ?_, ?_, ?_, ?_, ?_, ?_, ?_, ?_, ?_, ?_, ?_, ?_⟩
  case _ => simp [countFeedErrors, fetchAll, fetchAllErrors, List.filter_append, filter_getErr]
  case _ => simp [countFeedErrors, fetchAll, fetchAllErrors, List.filter_append, filter_getErr]
  case _ => simp [countFeedErrors, fetchAll, fetchAllErrors, List.filter_append, filter_getErr]
  case _ => simp [countFeedErrors, fetchAll, fetchAllErrors, List.filter_append, filter_getErr]
  case _ => simp [countFeedErrors, fetchAll, fetchAllErrors, List.filter_append, filter_getErr]
  case _ => simp [countFeedErrors, fetchAll, fetchAllErrors, List.filter_append, filter_getErr]
  case _ => simp [countFeedErrors, fetchAll, fetchAllErrors, List.filter_append, filter_getErr]
  case _ => simp [countFeedErrors, fetchAll, fetchAllErrors, List.filter_append, filter_getErr]
  case _ => simp [countFeedErrors, fetchAll, fetchAllErrors, List.filter_append, filter_getErr]
  case _ => simp [countFeedErrors, fetchAll, fetchAllErrors, List.filter_append, filter_getErr]
  case _ =>
    intro h
    cases rMag with
    | fulfilled v => simp [Settled.isRejected] at h
    | rejected m => rfl
  case _ =>
    intro h
    cases rPlasma with
    | fulfilled v => simp [Settled.isRejected] at h
    | rejected m => rfl
  case _ =>
    intro h
    cases rKp1m with
    | fulfilled v => simp [Settled.isRejected] at h
    | rejected m => rfl
  case _ =>
    intro h
    cases rKpOff with
    | fulfilled v => simp [Settled.isRejected] at h
    | rejected m => rfl
  case _ =>
    intro h
    cases rXray with
    | fulfilled v => simp [Settled.isRejected] at h
    | rejected m => exact ⟨rfl, rfl⟩
  case _ =>
    intro h
    cases rProton with
    | fulfilled v => simp [Settled.isRejected] at h
    | rejected m => exact ⟨rfl, rfl, rfl⟩
  case _ =>
    intro h
    cases rElectron with
    | fulfilled v => simp [Settled.isRejected] at h
    | rejected m => rfl
  case _ =>
    intro h
    cases rElectronDiff with
    | fulfilled v => simp [Settled.isRejected] at h
    | rejected m => rfl
  case _ =>
    intro h
    cases rF107 with
    | fulfilled v => simp [Settled.isRejected] at h
    | rejected m => rfl
  case _ =>
    intro h
    cases rAurora with
    | fulfilled v => simp [Settled.isRejected] at h
    | rejected m => rfl

/-- Witness for C3 at the all-feeds-failed input: the snapshot still exists,
carries one failure record per feed, and every data field is none. -/
theorem C3_failure_absorption_witness :
    (countFeedErrors (fetchAll "t" (.rejected none) (.rejected none) (.rejected none)
        (.rejected none) (.rejected (some "boom")) (.rejected none) (.rejected none)
        (.rejected none) (.rejected none) (.rejected none)) "Aurora Power" =
      if (Settled.rejected none : Settled (List Char)).isRejected then 1 else 0) ∧
    (fetchAll "t" (.rejected none) (.rejected none) (.rejected none)
        (.rejected none) (.rejected (some "boom")) (.rejected none) (.rejected none)
        (.rejected none) (.rejected none) (.rejected none)).data.solar_wind_mag = none ∧
    (fetchAll "t" (.rejected none) (.rejected none) (.rejected none)
        (.rejected none) (.rejected (some "boom")) (.rejected none) (.rejected none)
        (.rejected none) (.rejected none) (.rejected none)).data.aurora_power = none := by
  have h := C3_failure_absorption "t" (.rejected none) (.rejected none) (.rejected none)
    (.rejected none) (.rejected (some "boom")) (.rejected none) (.rejected none)
    (.rejected none) (.rejected none) (.rejected none) _ rfl
  exact ⟨h.2.2.2.2.2.2.2.2.2.1,
    h.2.2.2.2.2.2.2.2.2.2.1 rfl,
    h.2.2.2.2.2.2.2.2.2.2.2.2.2.2.2.2.2.2.2 rfl⟩

/-- A value is nullish: `null` or `undefined`. -/
def isNullish (v : JSVal) : Prop := v = JSVal.null ∨ v = JSVal.undefined

instance (v : JSVal) : Decidable (isNullish v) := by
  unfold isNullish
  infer_instance

/-- The status recorded in the metrics map under a given key. -/
def metricStatus (ev : Evaluation) (key : String) : Option Sev :=
  (ev.metrics.lookup key).map MetricEntry.status

theorem jsDefGe_nullish (v : JSVal) (t : Rat) (h : isNullish v) : jsDefGe v t = false := by
  rcases h with h | h <;> subst h <;> rfl

theorem jsDefLe_nullish (v : JSVal) (t : Rat) (h : isNullish v) : jsDefLe v t = false := by
  rcases h with h | h <;> subst h <;> rfl

theorem jsDefGt_nullish (v : JSVal) (t : Rat) (h : isNullish v) : jsDefGt v t = false := by
  rcases h with h | h <;> subst h <;> rfl

theorem mem_insertDesc {a b : Alert} {l : List Alert} (h : b ∈ insertDesc a l) :
    b = a ∨ b ∈ l := by
  induction l with
  | nil =>
    simp only [insertDesc, List.mem_singleton] at h
    exact Or.inl h
  | cons c cs ih =>
    simp only [insertDesc] at h
    split at h
    · rcases List.mem_cons.mp h with h' | h'
      · exact Or.inl h'
      · exact Or.inr h'
    · rcases List.mem_cons.mp h with h' | h'
      · exact Or.inr (by rw [h']; exact List.mem_cons_self c cs)
      · rcases ih h' with h2 | h2
        · exact Or.inl h2
        · exact Or.inr (List.mem_cons_of_mem c h2)

theorem mem_sortAlerts {b : Alert} {l : List Alert} (h : b ∈ sortAlerts l) : b ∈ l := by
  induction l with
  | nil =>
    simp only [sortAlerts] at h
    exact h
  | cons a as ih =>
    simp only [sortAlerts] at h
    rcases mem_insertDesc h with h' | h'
    · rw [h']
      exact List.mem_cons_self a as
    · exact List.mem_cons_of_mem a (ih h')

theorem mem_if_singleton {c : Prop} [Decidable c] {x a : Alert}
    (h : a ∈ (if c then [x] else [])) : a = x := by
  by_cases hc : c
  · rw [if_pos hc] at h
    simpa using h
  · rw [if_neg hc] at h
    simp at h

/-- C10: `evaluate` is total on every extracted-data object (it is a function
into `Evaluation`); its metrics map always has exactly the seven keys
`solar_wind`, `kp_index`, `xray_flux`, `proton_flux`, `electron_flux`,
`f107_flux`, `aurora_power`; every metric whose underlying value is null or
undefined gets NOMINAL status and contributes no alert (for `solar_wind`,
whose status is driven by both bz and speed, either driver being nullish
suffices); and on the fully sparse object the alert list is empty with all
seven statuses NOMINAL. -/
theorem C10_evaluate_total_sparse :
    (∀ e : ExtractedData, (evaluate e).metrics.map Prod.fst =
      ["solar_wind", "kp_index", "xray_flux", "proton_flux", "electron_flux",
       "f107_flux", "aurora_power"]) ∧
    (∀ e : ExtractedData,
      isNullish (optField e.solar_wind_mag MagSummary.bz_gsm) ∨
        isNullish (optField e.solar_wind_plasma PlasmaSummary.speed) →
      metricStatus (evaluate e) "solar_wind" = some SEV_NOMINAL ∧
      ∀ a ∈ (evaluate e).alerts, a.id ≠ "GEOMAG_STORM_IMMINENT") ∧
    (∀ e : ExtractedData, isNullish (optField e.kp_index_1m KpObj.kp_index) →
      metricStatus (evaluate e) "kp_index" = some SEV_NOMINAL ∧
      ∀ a ∈ (evaluate e).alerts, a.id ≠ "GEOMAG_STORM_ACTIVE") ∧
    (∀ e : ExtractedData, isNullish (optField e.xray_flux SWRecord.flux) →
      metricStatus (evaluate e) "xray_flux" = some SEV_NOMINAL ∧
      ∀ a ∈ (evaluate e).alerts, a.id ≠ "RADIO_BLACKOUT") ∧
    (∀ e : ExtractedData, isNullish (optField e.proton_flux SWRecord.flux) →
      metricStatus (evaluate e) "proton_flux" = some SEV_NOMINAL ∧
      ∀ a ∈ (evaluate e).alerts, a.id ≠ "RADIATION_STORM") ∧
    (∀ e : ExtractedData, isNullish (optField e.electron_flux SWRecord.flux) →
      metricStatus (evaluate e) "electron_flux" = some SEV_NOMINAL ∧
      ∀ a ∈ (evaluate e).alerts, a.id ≠ "DIELECTRIC_CHARGING") ∧
    (∀ e : ExtractedData, isNullish (optField e.f107_flux F107Obj.flux) →
      metricStatus (evaluate e) "f107_flux" = some SEV_NOMINAL ∧
      ∀ a ∈ (evaluate e).alerts, a.id ≠ "HIGH_ATMOSPHERIC_DRAG") ∧
    (∀ e : ExtractedData, isNullish (optField e.aurora_power AuroraSummary.hemispheric_power_gw) →
      metricStatus (evaluate e) "aurora_power" = some SEV_NOMINAL ∧
      ∀ a ∈ (evaluate e).alerts, a.id ≠ "AURORA_ACTIVE") ∧
    ((evaluate emptyExtracted).alerts = [] ∧
      (evaluate emptyExtracted).metrics.map (fun p => p.2.status) =
        List.replicate 7 SEV_NOMINAL) := by
  refine ⟨fun e => rfl, ?_, ?_, ?_, ?_, ?_, ?_, ?_, by decide⟩
  · -- solar_wind
    intro e h
    have hcond : (jsDefLe (optField e.solar_wind_mag MagSummary.bz_gsm) THRESHOLDS.bzSouth &&
        jsDefGt (optField e.solar_wind_plasma PlasmaSummary.speed) THRESHOLDS.windSpeed) = false := by
      rcases h with h | h
      · rw [jsDefLe_nullish _ _ h, Bool.false_and]
      · rw [jsDefGt_nullish _ _ h, Bool.and_false]
    constructor
    · simp [metricStatus, evaluate, List.lookup, hcond]
    · intro a ha
      simp only [evaluate] at ha
      have ha' := mem_sortAlerts ha
      simp only [List.mem_append] at ha'
      rcases ha' with (((((h1 | h2) | h3) | h4) | h5') | h6) | h7'
      · rw [hcond] at h1
        simp at h1
      · rw [mem_if_singleton h2]
        simp
      · rw [mem_if_singleton h3]
        simp
      · rw [mem_if_singleton h4]
        simp
      · rw [mem_if_singleton h5']
        simp
      · rw [mem_if_singleton h6]
        simp
      · rw [mem_if_singleton h7']
        simp
  · -- kp_index
    intro e h
    have h7 := jsDefGe_nullish _ THRESHOLDS.kpSevereStorm h
    have h5 := jsDefGe_nullish _ THRESHOLDS.kpMinorStorm h
    constructor
    · simp [metricStatus, evaluate, List.lookup, h7, h5]
    · intro a ha
      simp only [evaluate] at ha
      have ha' := mem_sortAlerts ha
      simp only [List.mem_append] at ha'
      rcases ha' with (((((h1 | h2) | h3) | h4) | h5') | h6) | h7'
      · rw [mem_if_singleton h1]
        simp
      · rw [h7, h5] at h2
        simp [SEV_WARNING, SEV_NOMINAL] at h2
      · rw [mem_if_singleton h3]
        simp
      · rw [mem_if_singleton h4]
        simp
      · rw [mem_if_singleton h5']
        simp
      · rw [mem_if_singleton h6]
        simp
      · rw [mem_if_singleton h7']
        simp
  · -- xray_flux
    intro e h
    have hx := jsDefGe_nullish _ THRESHOLDS.xClassFlare h
    have hm := jsDefGe_nullish _ THRESHOLDS.mClassFlare h
    constructor
    · simp [metricStatus, evaluate, List.lookup, hx, hm]
    · intro a ha
      simp only [evaluate] at ha
      have ha' := mem_sortAlerts ha
      simp only [List.mem_append] at ha'
      rcases ha' with (((((h1 | h2) | h3) | h4) | h5') | h6) | h7'
      · rw [mem_if_singleton h1]
        simp
      · rw [mem_if_singleton h2]
        simp
      · rw [hx, hm] at h3
        simp [SEV_WARNING, SEV_NOMINAL] at h3
      · rw [mem_if_singleton h4]
        simp
      · rw [mem_if_singleton h5']
        simp
      · rw [mem_if_singleton h6]
        simp
      · rw [mem_if_singleton h7']
        simp
  · -- proton_flux
    intro e h
    have hp := jsDefGe_nullish _ THRESHOLDS.s1Radiation h
    constructor
    · simp [metricStatus, evaluate, List.lookup, hp]
    · intro a ha
      simp only [evaluate] at ha
      have ha' := mem_sortAlerts ha
      simp only [List.mem_append] at ha'
      rcases ha' with (((((h1 | h2) | h3) | h4) | h5') | h6) | h7'
      · rw [mem_if_singleton h1]
        simp
      · rw [mem_if_singleton h2]
        simp
      · rw [mem_if_singleton h3]
        simp
      · rw [hp] at h4
        simp [SEV_WARNING, SEV_NOMINAL] at h4
      · rw [mem_if_singleton h5']
        simp
      · rw [mem_if_singleton h6]
        simp
      · rw [mem_if_singleton h7']
        simp
  · -- electron_flux
    intro e h
    have he := jsDefGe_nullish _ THRESHOLDS.electronAlert h
    constructor
    · simp [metricStatus, evaluate, List.lookup, he]
    · intro a ha
      simp only [evaluate] at ha
      have ha' := mem_sortAlerts ha
      simp only [List.mem_append] at ha'
      rcases ha' with (((((h1 | h2) | h3) | h4) | h5') | h6) | h7'
      · rw [mem_if_singleton h1]
        simp
      · rw [mem_if_singleton h2]
        simp
      · rw [mem_if_singleton h3]
        simp
      · rw [mem_if_singleton h4]
        simp
      · rw [he] at h5'
        simp [SEV_WARNING, SEV_NOMINAL] at h5'
      · rw [mem_if_singleton h6]
        simp
      · rw [mem_if_singleton h7']
        simp
  · -- f107_flux
    intro e h
    have hf := jsDefGe_nullish _ THRESHOLDS.highDrag h
    constructor
    · simp [metricStatus, evaluate, List.lookup, hf]
    · intro a ha
      simp only [evaluate] at ha
      have ha' := mem_sortAlerts ha
      simp only [List.mem_append] at ha'
      rcases ha' with (((((h1 | h2) | h3) | h4) | h5') | h6) | h7'
      · rw [mem_if_singleton h1]
        simp
      · rw [mem_if_singleton h2]
        simp
      · rw [mem_if_singleton h3]
        simp
      · rw [mem_if_singleton h4]
        simp
      · rw [mem_if_singleton h5']
        simp
      · rw [hf] at h6
        simp [SEV_WATCH, SEV_NOMINAL] at h6
      · rw [mem_if_singleton h7']
        simp
  · -- aurora_power
    intro e h
    have haur := jsDefGe_nullish _ THRESHOLDS.auroraActive h
    constructor
    · simp [metricStatus, evaluate, List.lookup, haur]
    · intro a ha
      simp only [evaluate] at ha
      have ha' := mem_sortAlerts ha
      simp only [List.mem_append] at ha'
      rcases ha' with (((((h1 | h2) | h3) | h4) | h5') | h6) | h7'
      · rw [mem_if_singleton h1]
        simp
      · rw [mem_if_singleton h2]
        simp
      · rw [mem_if_singleton h3]
        simp
      · rw [mem_if_singleton h4]
        simp
      · rw [mem_if_singleton h5']
        simp
      · rw [mem_if_singleton h6]
        simp
      · rw [haur] at h7'
        simp [SEV_INFO, SEV_NOMINAL] at h7'

/-- Witness for C10 at the fully sparse extracted-data object. -/
theorem C10_evaluate_total_sparse_witness :
    metricStatus (evaluate emptyExtracted) "kp_index" = some SEV_NOMINAL ∧
    metricStatus (evaluate emptyExtracted) "aurora_power" = some SEV_NOMINAL ∧
    ∀ a ∈ (evaluate emptyExtracted).alerts, a.id ≠ "GEOMAG_STORM_ACTIVE" :=
  ⟨(C10_evaluate_total_sparse.2.2.1 emptyExtracted (Or.inr rfl)).1,
   (C10_evaluate_total_sparse.2.2.2.2.2.2.2.1 emptyExtracted (Or.inr rfl)).1,
   (C10_evaluate_total_sparse.2.2.1 emptyExtracted (Or.inr rfl)).2⟩

theorem noaaStep_fetches {δ ε η : Type} (m0 : MemCache δ ε η) (noaa : Except String (δ × η))
    (evalFn : δ → ε) (t : Nat) :
    (noaaStep m0 noaa evalFn t).extractorFetches = 1 ∧
    (noaaStep m0 noaa evalFn t).blobAdopted = false := by
  cases noaa with
  | ok dh => exact ⟨rfl, rfl⟩
  | error e =>
    by_cases h : m0.data.isSome
    · simp [noaaStep, h]
    · simp [noaaStep, h]

theorem refreshBody_fetches {δ ε η : Type} (m0 : MemCache δ ε η) (token : Bool)
    (blob : BlobOutcome δ ε η) (noaa : Except String (δ × η)) (evalFn : δ → ε) (t1 t2 : Nat) :
    (refreshBody m0 token blob noaa evalFn t1 t2).extractorFetches =
      if (refreshBody m0 token blob noaa evalFn t1 t2).blobAdopted then 0 else 1 := by
  unfold refreshBody
  by_cases h : m0.data.isNone ∧ token = true
  · rw [if_pos h]
    cases blob with
    | found bc =>
      by_cases hb : t1 - bc.lastFetchBaseMs < CACHE_TTL
      · simp [hb]
      · simp only [if_neg hb]
        obtain ⟨h1, h2⟩ := noaaStep_fetches m0 noaa evalFn t2
        rw [h1, h2]
        rfl
    | readError msg =>
      obtain ⟨h1, h2⟩ := noaaStep_fetches m0 noaa evalFn t2
      rw [h1, h2]
      rfl
    | notFound =>
      obtain ⟨h1, h2⟩ := noaaStep_fetches m0 noaa evalFn t2
      rw [h1, h2]
      rfl
  · rw [if_neg h]
    obtain ⟨h1, h2⟩ := noaaStep_fetches m0 noaa evalFn t2
    rw [h1, h2]
    rfl

theorem refreshBody_data_some {δ ε η : Type} (m0 : MemCache δ ε η) (token : Bool)
    (blob : BlobOutcome δ ε η) (noaa : Except String (δ × η)) (evalFn : δ → ε) (t1 t2 : Nat)
    (h : m0.data.isSome = true) :
    (refreshBody m0 token blob noaa evalFn t1 t2).extractorFetches = 1 := by
  unfold refreshBody
  have hn : ¬ (m0.data.isNone ∧ token = true) := by
    intro hc
    rw [Option.isNone_iff_eq_none] at hc
    rw [hc.1] at h
    exact Bool.noConfusion h
  rw [if_neg hn]
  exact (noaaStep_fetches m0 noaa evalFn t2).1

theorem runGets_joined {δ ε η : Type} (s : ServerState δ ε η) (now : Nat) (k : Nat)
    (hf : s.isFetching = true)
    (hmiss : ¬ (s.memoryCache.data.isSome ∧ now - s.memoryCache.lastFetchBaseMs < CACHE_TTL)) :
    runGets s now k = (s, List.replicate k (.joined s.fetchStartCount)) := by
  induction k with
  | zero => rfl
  | succ k ih =>
    have hstep : getFreshDataEntry s now = (s, .joined s.fetchStartCount) := by
      simp [getFreshDataEntry, hmiss, hf]
    simp [runGets, hstep, ih, List.replicate_succ]

/-- C4: with a fresh cache (data present, age strictly below the TTL), each
`getFreshData` entry returns the memory cache immediately and leaves the
whole server state unchanged — in particular the second of two calls within
the TTL window starts no refresh cycle (`fetchStartCount` unchanged; all
upstream and persistent-store access happens only inside a refresh cycle)
and returns a snapshot identical to the first call's. -/
theorem C4_ttl_idempotent {δ ε η : Type} (s : ServerState δ ε η) (now1 now2 : Nat) (d : δ)
    (hdata : s.memoryCache.data = some d)
    (h1 : now1 - s.memoryCache.lastFetchBaseMs < CACHE_TTL)
    (h2 : now2 - s.memoryCache.lastFetchBaseMs < CACHE_TTL) :
    getFreshDataEntry s now1 = (s, .hit s.memoryCache) ∧
    getFreshDataEntry (getFreshDataEntry s now1).1 now2 = (s, .hit s.memoryCache) ∧
    (getFreshDataEntry (getFreshDataEntry s now1).1 now2).1.fetchStartCount =
      s.fetchStartCount := by
  have hfirst : getFreshDataEntry s now1 = (s, .hit s.memoryCache) := by
    simp [getFreshDataEntry, hdata, h1]
  have hsecond : getFreshDataEntry s now2 = (s, .hit s.memoryCache) := by
    simp [getFreshDataEntry, hdata, h2]
  refine ⟨hfirst, ?_, ?_⟩
  · rw [hfirst]
    exact hsecond
  · rw [hfirst, hsecond]

/-- Witness for C4 at a concrete fresh cache state. -/
theorem C4_ttl_idempotent_witness :
    getFreshDataEntry (⟨⟨some 0, some 0, some 0, 1000⟩, false, 3⟩ : ServerState Nat Nat Nat) 2000 =
      (⟨⟨some 0, some 0, some 0, 1000⟩, false, 3⟩,
       .hit ⟨some 0, some 0, some 0, 1000⟩) ∧
    getFreshDataEntry (getFreshDataEntry
        (⟨⟨some 0, some 0, some 0, 1000⟩, false, 3⟩ : ServerState Nat Nat Nat) 2000).1 2500 =
      (⟨⟨some 0, some 0, some 0, 1000⟩, false, 3⟩,
       .hit ⟨some 0, some 0, some 0, 1000⟩) ∧
    (getFreshDataEntry (getFreshDataEntry
        (⟨⟨some 0, some 0, some 0, 1000⟩, false, 3⟩ : ServerState Nat Nat Nat) 2000).1 2500).1.fetchStartCount = 3 :=
  C4_ttl_idempotent ⟨⟨some 0, some 0, some 0, 1000⟩, false, 3⟩ 2000 2500 0
    (by decide) (by decide) (by decide)

/-- C2: stale-on-error fallback.  Part 1: from a state holding a snapshot of
age at least the TTL, the next `getFreshData` entry starts a refresh, and if
that refresh's NOAA fetch fails, completion returns the previous memory
cache unchanged (`.ok`, no error raised) and reinstalls it as the cache.
Part 2: from a state with no previous snapshot, in every environment in
which the refresh body reaches the NOAA fetch — no blob token configured, no
persisted blob found, the blob read itself failing (absorbed internally), or
a persisted copy that is itself outside the TTL — a failing NOAA fetch makes
the refresh attempt throw, and the failure is propagated to the waiters as
an error (the memory cache still unchanged). -/
theorem C2_stale_on_error :
    (∀ (δ ε η : Type) (s : ServerState δ ε η) (now : Nat) (d : δ) (e : String),
      s.memoryCache.data = some d → CACHE_TTL ≤ now - s.memoryCache.lastFetchBaseMs →
      s.isFetching = false →
      (getFreshDataEntry s now).2 = .started (s.fetchStartCount + 1) ∧
      ∀ (token : Bool) (blob : BlobOutcome δ ε η) (evalFn : δ → ε) (t1 t2 : Nat),
        completeRefresh (getFreshDataEntry s now).1 token blob (.error e) evalFn t1 t2 =
          (⟨s.memoryCache, false, s.fetchStartCount + 1⟩, .ok s.memoryCache)) ∧
    (∀ (δ ε η : Type) (s : ServerState δ ε η) (now : Nat) (e : String),
      s.memoryCache.data = none → s.isFetching = false →
      ∀ (evalFn : δ → ε) (t1 t2 : Nat),
      (∀ blob : BlobOutcome δ ε η,
        completeRefresh (getFreshDataEntry s now).1 false blob (.error e) evalFn t1 t2 =
          (⟨s.memoryCache, false, s.fetchStartCount + 1⟩, .error e)) ∧
      (completeRefresh (getFreshDataEntry s now).1 true .notFound (.error e) evalFn t1 t2 =
        (⟨s.memoryCache, false, s.fetchStartCount + 1⟩, .error e)) ∧
      (∀ msg : String,
        completeRefresh (getFreshDataEntry s now).1 true (.readError msg) (.error e) evalFn
            t1 t2 =
          (⟨s.memoryCache, false, s.fetchStartCount + 1⟩, .error e)) ∧
      (∀ bc : MemCache δ ε η, CACHE_TTL ≤ t1 - bc.lastFetchBaseMs →
        completeRefresh (getFreshDataEntry s now).1 true (.found bc) (.error e) evalFn t1 t2 =
          (⟨s.memoryCache, false, s.fetchStartCount + 1⟩, .error e))) := by
  constructor
  · intro δ ε η s now d e hdata hstale hf
    have hmiss : ¬ (s.memoryCache.data.isSome ∧
        now - s.memoryCache.lastFetchBaseMs < CACHE_TTL) := by
      intro hc
      omega
    have hentry : getFreshDataEntry s now =
        ({ s with isFetching := true, fetchStartCount := s.fetchStartCount + 1 },
         .started (s.fetchStartCount + 1)) := by
      simp [getFreshDataEntry, hmiss, hf]
    refine ⟨by rw [hentry], ?_⟩
    intro token blob evalFn t1 t2
    rw [hentry]
    have hsome : s.memoryCache.data.isSome = true := by
      rw [hdata]
      rfl
    have hn : ¬ (s.memoryCache.data.isNone ∧ token = true) := by
      intro hc
      rw [Option.isNone_iff_eq_none] at hc
      rw [hc.1] at hdata
      exact Option.noConfusion hdata
    have hbody : refreshBody s.memoryCache token blob (.error e) evalFn t1 t2 =
        ⟨s.memoryCache, .ok s.memoryCache, 1, false⟩ := by
      unfold refreshBody
      rw [if_neg hn]
      simp [noaaStep, hsome]
    simp [completeRefresh, hbody]
  · intro δ ε η s now e hdata hf evalFn t1 t2
    have hmiss : ¬ (s.memoryCache.data.isSome ∧
        now - s.memoryCache.lastFetchBaseMs < CACHE_TTL) := by
      intro hc
      rw [hdata] at hc
      exact Bool.noConfusion hc.1
    have hentry : getFreshDataEntry s now =
        ({ s with isFetching := true, fetchStartCount := s.fetchStartCount + 1 },
         .started (s.fetchStartCount + 1)) := by
      simp [getFreshDataEntry, hmiss, hf]
    have hnone : s.memoryCache.data.isSome = false := by
      rw [hdata]
      rfl
    have hstep : noaaStep s.memoryCache (Except.error e : Except String (δ × η)) evalFn t2 =
        ⟨s.memoryCache, .error e, 1, false⟩ := by
      simp [noaaStep, hnone]
    have hisnone : s.memoryCache.data.isNone = true := by
      rw [hdata]
      rfl
    refine ⟨?_, ?_, ?_, ?_⟩
    · intro blob
      rw [hentry]
      have hbody : refreshBody s.memoryCache false blob (.error e) evalFn t1 t2 =
          ⟨s.memoryCache, .error e, 1, false⟩ := by
        unfold refreshBody
        rw [if_neg (by intro hc; exact Bool.noConfusion hc.2)]
        exact hstep
      simp [completeRefresh, hbody]
    · rw [hentry]
      have hbody : refreshBody s.memoryCache true .notFound (.error e) evalFn t1 t2 =
          ⟨s.memoryCache, .error e, 1, false⟩ := by
        unfold refreshBody
        rw [if_pos ⟨hisnone, rfl⟩]
        exact hstep
      simp [completeRefresh, hbody]
    · intro msg
      rw [hentry]
      have hbody : refreshBody s.memoryCache true (.readError msg) (.error e) evalFn t1 t2 =
          ⟨s.memoryCache, .error e, 1, false⟩ := by
        unfold refreshBody
        rw [if_pos ⟨hisnone, rfl⟩]
        exact hstep
      simp [completeRefresh, hbody]
    · intro bc hbc
      rw [hentry]
      have hbody : refreshBody s.memoryCache true (.found bc) (.error e) evalFn t1 t2 =
          ⟨s.memoryCache, .error e, 1, false⟩ := by
        unfold refreshBody
        rw [if_pos ⟨hisnone, rfl⟩]
        have hb : ¬ (t1 - bc.lastFetchBaseMs < CACHE_TTL) := by omega
        simp [hb, hstep]
      simp [completeRefresh, hbody]

/-- Witness for C2: a concrete stale state whose failed refresh returns the
old cache, and a concrete empty state whose failed refresh propagates the
error on each of the four no-adoption environments, including a stale
persisted copy. -/
theorem C2_stale_on_error_witness :
    ((getFreshDataEntry (⟨⟨some 5, some 6, some 7, 0⟩, false, 0⟩ : ServerState Nat Nat Nat)
        400000).2 = .started 1 ∧
      ∀ (token : Bool) (blob : BlobOutcome Nat Nat Nat) (evalFn : Nat → Nat) (t1 t2 : Nat),
        completeRefresh (getFreshDataEntry
            (⟨⟨some 5, some 6, some 7, 0⟩, false, 0⟩ : ServerState Nat Nat Nat) 400000).1
            token blob (.error "down") evalFn t1 t2 =
          (⟨⟨some 5, some 6, some 7, 0⟩, false, 1⟩, .ok ⟨some 5, some 6, some 7, 0⟩)) ∧
    completeRefresh (getFreshDataEntry
        (⟨⟨none, none, none, 0⟩, false, 0⟩ : ServerState Nat Nat Nat) 400000).1
        true .notFound (.error "down") (fun d => d) 400000 400001 =
      (⟨⟨none, none, none, 0⟩, false, 1⟩, .error "down") ∧
    completeRefresh (getFreshDataEntry
        (⟨⟨none, none, none, 0⟩, false, 0⟩ : ServerState Nat Nat Nat) 400000).1
        true (.found ⟨some 9, some 9, some 9, 0⟩) (.error "down") (fun d => d) 400000 400001 =
      (⟨⟨none, none, none, 0⟩, false, 1⟩, .error "down") :=
  ⟨C2_stale_on_error.1 Nat Nat Nat ⟨⟨some 5, some 6, some 7, 0⟩, false, 0⟩ 400000 5 "down"
      rfl (by decide) rfl,
   (C2_stale_on_error.2 Nat Nat Nat ⟨⟨none, none, none, 0⟩, false, 0⟩ 400000 "down"
      rfl rfl (fun d => d) 400000 400001).2.1,
   (C2_stale_on_error.2 Nat Nat Nat ⟨⟨none, none, none, 0⟩, false, 0⟩ 400000 "down"
      rfl rfl (fun d => d) 400000 400001).2.2.2 ⟨some 9, some 9, some 9, 0⟩ (by decide)⟩

/-- C1 (amended): for `k ≥ 1` concurrent `getFreshData` calls arriving while
the cache is missing or stale and no refresh is in flight, exactly one
refresh cycle is started (the first caller starts it, every other caller
joins the same in-flight refresh, `fetchStartCount` rises by exactly one, and
the memory cache is untouched by the entries); all `k` callers receive the
result of that same single refresh; and that refresh performs exactly one
extractor fetch unless it adopts a still-fresh persisted blob snapshot on a
cold start, in which case it performs zero (in particular, whenever a
previous snapshot exists — the stale case — it performs exactly one). -/
theorem C1_single_flight {δ ε η : Type} (s : ServerState δ ε η) (now k : Nat)
    (hk : 1 ≤ k)
    (hmiss : s.memoryCache.data = none ∨ CACHE_TTL ≤ now - s.memoryCache.lastFetchBaseMs)
    (hf : s.isFetching = false) :
    (runGets s now k).1.fetchStartCount = s.fetchStartCount + 1 ∧
    (runGets s now k).2 =
      .started (s.fetchStartCount + 1) ::
        List.replicate (k - 1) (.joined (s.fetchStartCount + 1)) ∧
    (∀ r : Except String (MemCache δ ε η),
      ((runGets s now k).2).map (deliver r) = List.replicate k r) ∧
    (runGets s now k).1.memoryCache = s.memoryCache ∧
    (∀ (token : Bool) (blob : BlobOutcome δ ε η) (noaa : Except String (δ × η))
        (evalFn : δ → ε) (t1 t2 : Nat),
      (refreshBody (runGets s now k).1.memoryCache token blob noaa evalFn t1 t2).extractorFetches =
        (if (refreshBody (runGets s now k).1.memoryCache token blob noaa evalFn t1
            t2).blobAdopted then 0 else 1) ∧
      (s.memoryCache.data.isSome = true →
        (refreshBody (runGets s now k).1.memoryCache token blob noaa evalFn
          t1 t2).extractorFetches = 1)) := by
  have hmiss' : ¬ (s.memoryCache.data.isSome ∧
      now - s.memoryCache.lastFetchBaseMs < CACHE_TTL) := by
    rintro ⟨h1, h2⟩
    rcases hmiss with h | h
    · rw [h] at h1
      exact Bool.noConfusion h1
    · omega
  obtain ⟨k', rfl⟩ : ∃ k', k = k' + 1 := ⟨k - 1, by omega⟩
  have hentry : getFreshDataEntry s now =
      ({ s with isFetching := true, fetchStartCount := s.fetchStartCount + 1 },
       .started (s.fetchStartCount + 1)) := by
    simp [getFreshDataEntry, hmiss', hf]
  have hrest : runGets { s with isFetching := true, fetchStartCount := s.fetchStartCount + 1 }
      now k' =
      ({ s with isFetching := true, fetchStartCount := s.fetchStartCount + 1 },
       List.replicate k' (.joined (s.fetchStartCount + 1))) :=
    runGets_joined _ now k' rfl hmiss'
  have hrun : runGets s now (k' + 1) =
      ({ s with isFetching := true, fetchStartCount := s.fetchStartCount + 1 },
       .started (s.fetchStartCount + 1) :: List.replicate k' (.joined (s.fetchStartCount + 1))) := by
    simp [runGets, hentry, hrest]
  rw [hrun]
  refine ⟨rfl, by simp, ?_, rfl, ?_⟩
  · intro r
    simp [deliver, List.map_replicate, List.replicate_succ]
  · intro token blob noaa evalFn t1 t2
    exact ⟨refreshBody_fetches _ _ _ _ _ _ _, fun hd => refreshBody_data_some _ _ _ _ _ _ _ hd⟩

/-- Witness for C1 (amended): two concurrent calls on a concrete stale state
start exactly one refresh and both receive its result. -/
theorem C1_single_flight_witness :
    (runGets (⟨⟨some 5, some 6, some 7, 0⟩, false, 0⟩ : ServerState Nat Nat Nat) 400000 2).1.fetchStartCount =
      0 + 1 ∧
    (runGets (⟨⟨some 5, some 6, some 7, 0⟩, false, 0⟩ : ServerState Nat Nat Nat) 400000 2).2 =
      .started (0 + 1) :: List.replicate (2 - 1) (.joined (0 + 1)) ∧
    (∀ r : Except String (MemCache Nat Nat Nat),
      ((runGets (⟨⟨some 5, some 6, some 7, 0⟩, false, 0⟩ : ServerState Nat Nat Nat) 400000 2).2).map
        (deliver r) = List.replicate 2 r) ∧
    (runGets (⟨⟨some 5, some 6, some 7, 0⟩, false, 0⟩ : ServerState Nat Nat Nat) 400000 2).1.memoryCache =
      ⟨some 5, some 6, some 7, 0⟩ ∧
    (∀ (token : Bool) (blob : BlobOutcome Nat Nat Nat) (noaa : Except String (Nat × Nat))
        (evalFn : Nat → Nat) (t1 t2 : Nat),
      (refreshBody (runGets (⟨⟨some 5, some 6, some 7, 0⟩, false, 0⟩ : ServerState Nat Nat Nat)
          400000 2).1.memoryCache token blob noaa evalFn t1 t2).extractorFetches =
        (if (refreshBody (runGets (⟨⟨some 5, some 6, some 7, 0⟩, false, 0⟩ : ServerState Nat Nat Nat)
            400000 2).1.memoryCache token blob noaa evalFn t1 t2).blobAdopted then 0 else 1) ∧
      ((⟨⟨some 5, some 6, some 7, 0⟩, false, 0⟩ : ServerState Nat Nat Nat).memoryCache.data.isSome = true →
        (refreshBody (runGets (⟨⟨some 5, some 6, some 7, 0⟩, false, 0⟩ : ServerState Nat Nat Nat)
          400000 2).1.memoryCache token blob noaa evalFn t1 t2).extractorFetches = 1)) :=
  C1_single_flight ⟨⟨some 5, some 6, some 7, 0⟩, false, 0⟩ 400000 2
    (by decide) (Or.inr (by decide)) rfl

/-- Counterexample to C1 as stated: with an empty memory cache, a configured
blob token and a still-fresh persisted snapshot, two concurrent calls during
the miss coalesce into exactly one started refresh — but that refresh adopts
the persisted snapshot and performs zero extractor fetches, not one. -/
theorem C1_single_flight_counterexample :
    (runGets (⟨⟨none, none, none, 0⟩, false, 0⟩ : ServerState Nat Nat Nat) 1200 2).2 =
      [.started 1, .joined 1] ∧
    (refreshBody (runGets (⟨⟨none, none, none, 0⟩, false, 0⟩ : ServerState Nat Nat Nat)
        1200 2).1.memoryCache true (.found ⟨some 7, some 8, some 9, 1000⟩)
        (.ok (5, 6)) (fun d => d) 1200 1300).blobAdopted = true ∧
    (refreshBody (runGets (⟨⟨none, none, none, 0⟩, false, 0⟩ : ServerState Nat Nat Nat)
        1200 2).1.memoryCache true (.found ⟨some 7, some 8, some 9, 1000⟩)
        (.ok (5, 6)) (fun d => d) 1200 1300).extractorFetches = 0 := by
  refine ⟨by decide, ?_, ?_⟩ <;> rfl
